import Mathlib

/-!
Shallow embedding of the retrieval core of the repository
(`EnhancedVectorDatabase`, source file `src/unnamed/part_004`), together with
theorems settling the frozen claims C1..C10 about it.

Conventions of the embedding:
* JS numbers are modelled by `ℚ` where the source only performs field
  operations on rationals, and by `ℝ` where `Math.sqrt` / `Math.log` appear.
* A JS object used as a string-keyed multiset of counts (such as the
  `wordCounts` objects built in `createTfidfVector`) is represented by the
  list of tokens that was folded into it: its keys are the deduplicated
  tokens in first-occurrence order and the value at a key is the count of
  that token in the list.
* JS `Map`s are represented by association lists in insertion order;
  `Map.set` overwrites in place, `Map.delete` removes the entry.
* The external npm libraries (`natural.PorterStemmer`, the `stopword`
  package's `eng` list, `keyword-extractor`, `string-similarity`) are not
  part of the repository; they enter the model as the fields of a `Libs`
  record over which all general theorems are universally quantified.
  `kwExtract` returns `none` when the library call would throw.
-/

open scoped Classical

namespace VecDB

/-- External library functions consumed by `part_004` (`require` lines 1-7).
`stem` models `natural.PorterStemmer.stem`, `isStop` models membership in the
`stopword` package's `eng` list, `kwExtract` models `keyword.extract` (with
`none` for a thrown exception), and `strSim` models
`stringSimilarity.compareTwoStrings`. -/
structure Libs where
  stem : String → String
  isStop : String → Bool
  kwExtract : String → Option (List String)
  strSim : String → String → ℚ

/-- Substring test: models JS `String.prototype.includes` and the
alternation-of-literals regexes used in `createSemanticVector`. -/
def containsStr (s pat : String) : Bool :=
  decide (pat.toList <:+: s.toList)

/-- Lowercasing, models JS `String.prototype.toLowerCase` (character-wise,
which agrees with it on the ASCII inputs involved). -/
def strLower (s : String) : String :=
  (s.toList.map Char.toLower).asString

/-- Splits a character list at every character satisfying `p`, keeping empty
pieces, as JS `String.prototype.split` does at each single separator. -/
def splitCh (p : Char → Bool) : List Char → List (List Char)
  | [] => [[]]
  | c :: cs =>
    match splitCh p cs with
    | [] => [[c]]
    | t :: ts => if p c then [] :: t :: ts else (c :: t) :: ts

/-- Models `text.split(/\s+/)` on raw text.  JS collapses whitespace runs
while this keeps the empty pieces a run produces; the extra `""` tokens are
inert in every use the source makes of raw splits (they belong to no
sentiment lexicon and fail every `length > 2` / `length > 3` filter). -/
def rawTokens (s : String) : List String :=
  (splitCh (·.isWhitespace) s.toList).map List.asString

/-- Character class `\w` of JS regexes (ASCII letters, digits, underscore). -/
def isWordChar (c : Char) : Bool :=
  c.isAlphanum || c = '_'

/-- Token list of `preprocessText` (lines 99-104) followed by a whitespace
split: lowercase, replace every non-word character by a space, collapse
spaces, trim, split.  A text with no word characters yields `[""]`, exactly
as `"".split(/\s+/)` does in JS. -/
def preprocessTokens (s : String) : List String :=
  let mapped := s.toList.map fun c => if isWordChar c then c.toLower else ' '
  let toks := ((splitCh (· = ' ') mapped).filter (· ≠ [])).map List.asString
  if toks = [] then [""] else toks

/-- Stopword removal `removeStopwords(ws, eng)` for a given library model. -/
def removeStop (L : Libs) (ws : List String) : List String :=
  ws.filter fun w => ¬ L.isStop w

/-- Token list whose counts form the object built by `createTfidfVector`
(lines 106-117): preprocess, split, stem, then remove stopwords. -/
def tfidfTokens (L : Libs) (s : String) : List String :=
  removeStop L ((preprocessTokens s).map L.stem)

/-- Token list whose counts form the object built by
`createWordFrequencyVector` (lines 119-129) on the `words` computed in
`createTextEmbedding`: tokens longer than 2 characters, stopwords removed,
then each word lowercased and stemmed. -/
def wordFreqTokens (L : Libs) (s : String) : List String :=
  (removeStop L ((preprocessTokens s).filter (2 < ·.length))).map
    fun w => L.stem (strLower w)

/-- Positive lexicon of `calculateSimpleSentiment` (line 148). -/
def positiveWords : List String :=
  ["good", "great", "excellent", "effective", "successful", "important",
   "significant"]

/-- Negative lexicon of `calculateSimpleSentiment` (line 149). -/
def negativeWords : List String :=
  ["bad", "poor", "failed", "problem", "issue", "difficult", "challenge"]

/-- Sentiment score of `calculateSimpleSentiment` (lines 147-160): +1 for
each positive-lexicon word, -1 for each negative-lexicon word, over the
whitespace split of the lowercased raw text. -/
def calcSentiment (s : String) : ℤ :=
  (rawTokens (strLower s)).foldl
    (fun sc w =>
      sc + (if w ∈ positiveWords then 1 else 0)
         - (if w ∈ negativeWords then 1 else 0)) 0

/-- Result of `createSemanticVector` (lines 131-145): seven boolean pattern
flags plus the sentiment score. -/
structure SemanticVector where
  hasQuestions : Bool
  hasNumbers : Bool
  hasDefinitions : Bool
  hasExamples : Bool
  hasComparisons : Bool
  hasProcess : Bool
  hasCausal : Bool
  sentiment : ℤ
  deriving DecidableEq

/-- The `createSemanticVector` computation (lines 131-145).  Each regex in
the source is an alternation of string literals tested against the
(lowercased) text, which is exactly a disjunction of substring tests. -/
def mkSemanticVector (s : String) : SemanticVector :=
  let lo := strLower s
  { hasQuestions := containsStr s "?"
    hasNumbers := s.toList.any (·.isDigit)
    hasDefinitions := containsStr lo "is" || containsStr lo "are" ||
      containsStr lo "means" || containsStr lo "refers to" ||
      containsStr lo "defined as"
    hasExamples := containsStr lo "example" || containsStr lo "such as" ||
      containsStr lo "for instance" || containsStr lo "including"
    hasComparisons := containsStr lo "compare" || containsStr lo "contrast" ||
      containsStr lo "versus" || containsStr lo "different" ||
      containsStr lo "similar"
    hasProcess := containsStr lo "step" || containsStr lo "process" ||
      containsStr lo "method" || containsStr lo "procedure" ||
      containsStr lo "algorithm"
    hasCausal := containsStr lo "because" || containsStr lo "since" ||
      containsStr lo "due to" || containsStr lo "caused by" ||
      containsStr lo "result"
    sentiment := calcSentiment s }

/-- Frequency-count object keyed by token, represented as an association
list in first-occurrence order; models the `wordCounts[word] =
(wordCounts[word] || 0) + 1` folds of the source. -/
def wordCounts (ws : List String) : List (String × ℕ) :=
  ws.dedup.map fun w => (w, ws.count w)

/-- Fallback keyword extraction (lines 180-196): preprocess, remove
stopwords, stem, keep words longer than 3 characters, rank by descending
frequency (stable, as JS `Array.prototype.sort` is), take the top 10. -/
def fallbackKeywordExtraction (L : Libs) (s : String) : List String :=
  let stemmed := (removeStop L (preprocessTokens s)).map L.stem
  (((wordCounts (stemmed.filter (3 < ·.length))).mergeSort
      fun x y => y.2 ≤ x.2).take 10).map Prod.fst

/-- Keyword extraction for a chunk (lines 162-174): the library call's first
10 results, or the fallback extraction when the library throws. -/
def extractChunkKeywords (L : Libs) (s : String) : List String :=
  match L.kwExtract s with
  | some r => r.take 10
  | none => fallbackKeywordExtraction L s

/-- Document-level keywords (lines 176-178). -/
def extractDocumentKeywords (L : Libs) (s : String) : List String :=
  (extractChunkKeywords L s).take 20

/-- Word-vector token list of `createWordVectors` (lines 198-210): tokens
longer than 2 characters, stemmed, no stopword removal. -/
def createWordVectors (L : Libs) (s : String) : List String :=
  ((preprocessTokens s).filter (2 < ·.length)).map L.stem

/-- Multi-part feature record built by `createTextEmbedding` (lines 83-97).
The two count objects are represented by their token lists (see the file
header). -/
structure TextEmbedding where
  tfidf : List String
  wordFreq : List String
  semantic : SemanticVector
  keywords : List String
  length : ℕ
  wordCount : ℕ
  avgWordLength : ℚ
  deriving DecidableEq

/-- The `createTextEmbedding` computation (lines 83-97).  `avgWordLength`
divides by the word count; for an empty word list the JS `NaN || 0` yields
`0`, matched here by rational division by zero being `0`. -/
def createTextEmbedding (L : Libs) (s : String) : TextEmbedding :=
  let words := (preprocessTokens s).filter (2 < ·.length)
  { tfidf := tfidfTokens L s
    wordFreq := wordFreqTokens L s
    semantic := mkSemanticVector s
    keywords := extractChunkKeywords L s
    length := s.length
    wordCount := words.length
    avgWordLength := ((words.map (·.length)).sum : ℚ) / (words.length : ℚ) }

/-- Keys of a count object: deduplicated tokens in first-occurrence order. -/
def vecKeys (l : List String) : List String :=
  l.dedup

/-- Union of the key sets of two count objects, in the order
`[...new Set([...keys1, ...keys2])]` produces. -/
def allKeysOf (l1 l2 : List String) : List String :=
  (vecKeys l1 ++ vecKeys l2).dedup

/-- Dot product accumulated by `calculateTfidfSimilarity` (lines 324-331);
all counts are natural numbers, so it is computed in `ℕ`. -/
def dotQ (l1 l2 : List String) : ℕ :=
  ((allKeysOf l1 l2).map fun k => l1.count k * l2.count k).sum

/-- Squared norm of the first count object, accumulated over the union of
keys exactly as lines 324-331 do (a key missing from a list counts 0 there,
so which union the sum ranges over does not change its value). -/
def normQ (l1 l2 : List String) : ℕ :=
  ((allKeysOf l1 l2).map fun k => l1.count k ^ 2).sum

/-- Cosine similarity of `calculateTfidfSimilarity` (lines 311-336) between
two count objects (given by their token lists): zero when the key sets are
disjoint or either norm vanishes, otherwise the dot product over the union
of keys divided by the product of the square-rooted norms. -/
noncomputable def cosineSim (l1 l2 : List String) : ℝ :=
  if (vecKeys l1).filter (fun k => (vecKeys l2).contains k) = [] then 0
  else if normQ l1 l2 = 0 ∨ normQ l2 l1 = 0 then 0
  else (dotQ l1 l2 : ℝ) /
    (Real.sqrt (normQ l1 l2 : ℝ) * Real.sqrt (normQ l2 l1 : ℝ))

/-- Size of the intersection of the lowercased keyword sets
(`calculateKeywordSimilarity`, line 348). -/
def kwInterLen (k1 k2 : List String) : ℕ :=
  (((k1.map strLower).dedup).filter
    fun k => ((k2.map strLower).dedup).contains k).length

/-- Size of the union of the lowercased keyword sets
(`calculateKeywordSimilarity`, line 349). -/
def kwUnionLen (k1 k2 : List String) : ℕ :=
  (((k1.map strLower).dedup ++ (k2.map strLower).dedup).dedup).length

/-- Jaccard keyword similarity of `calculateKeywordSimilarity`
(lines 342-352): zero when either list is empty, otherwise
`|intersection| / |union|` of the lowercased keyword sets. -/
def calculateKeywordSimilarity (k1 k2 : List String) : ℚ :=
  if k1 = [] ∨ k2 = [] then 0 else
  (kwInterLen k1 k2 : ℚ) / (kwUnionLen k1 k2 : ℚ)

/-- Count of boolean feature flags on which two semantic vectors agree;
`calculateSemanticSimilarity` iterates the seven boolean keys. -/
def semMatches (a b : SemanticVector) : ℕ :=
  (if a.hasQuestions = b.hasQuestions then 1 else 0) +
  (if a.hasNumbers = b.hasNumbers then 1 else 0) +
  (if a.hasDefinitions = b.hasDefinitions then 1 else 0) +
  (if a.hasExamples = b.hasExamples then 1 else 0) +
  (if a.hasComparisons = b.hasComparisons then 1 else 0) +
  (if a.hasProcess = b.hasProcess then 1 else 0) +
  (if a.hasCausal = b.hasCausal then 1 else 0)

/-- Semantic-feature similarity of `calculateSemanticSimilarity`
(lines 354-372).  Both records always carry the seven boolean flags and a
numeric sentiment, so `total = 7` and the sentiment branch is always taken:
the result is the mean of the flag-agreement fraction and the
sentiment-closeness term `1 - |Δsentiment| / 10`. -/
def calculateSemanticSimilarity (a b : SemanticVector) : ℚ :=
  ((semMatches a b : ℚ) / 7 +
    (1 - ((|a.sentiment - b.sentiment| : ℤ) : ℚ) / 10)) / 2

/-- Composite similarity of `calculateEnhancedSimilarity` (lines 284-309):
weighted sum of the TF-IDF cosine (0.4), the word-frequency cosine (0.3),
the keyword Jaccard similarity (0.2) and the semantic-feature similarity
(0.1), divided by the total weight 1.0. -/
noncomputable def calculateEnhancedSimilarity (qe de : TextEmbedding) : ℝ :=
  let weights : ℚ := 0.4 + 0.3 + 0.2 + 0.1
  let total : ℝ :=
    cosineSim qe.tfidf de.tfidf * 0.4 +
    cosineSim qe.wordFreq de.wordFreq * 0.3 +
    (calculateKeywordSimilarity qe.keywords de.keywords : ℝ) * 0.2 +
    (calculateSemanticSimilarity qe.semantic de.semantic : ℝ) * 0.1
  if 0 < weights then total / (weights : ℝ) else 0

/-- JS `Math.round`: half-up rounding, `⌊x + 1/2⌋`. -/
def jsRound (q : ℚ) : ℤ :=
  ⌊q + 1 / 2⌋

/-- Complexity record of `calculateComplexity` (lines 227-238). -/
structure Complexity where
  avgWordLength : ℚ
  lexicalDiversity : ℚ
  readabilityScore : ℚ
  deriving DecidableEq

/-- The `calculateComplexity` computation (lines 227-238) over the raw
whitespace split of the text (never empty, as in JS). -/
def calculateComplexity (s : String) : Complexity :=
  let words := rawTokens s
  let awl : ℚ := ((words.map (·.length)).sum : ℚ) / (words.length : ℚ)
  let uniq : ℕ := ((words.map strLower).dedup).length
  let ld : ℚ := (uniq : ℚ) / (words.length : ℚ)
  { avgWordLength := (jsRound (awl * 100) : ℚ) / 100
    lexicalDiversity := (jsRound (ld * 100) : ℚ) / 100
    readabilityScore := max 0 (min 100 ((100 - awl * 5) + ld * 30)) }

/-- Statistics record of `calculateDocumentStatistics` (lines 212-225). -/
structure DocStats where
  totalChunks : ℕ
  totalWords : ℕ
  totalSentences : ℕ
  avgWordsPerChunk : ℤ
  avgSentencesPerChunk : ℤ
  complexity : Complexity
  deriving DecidableEq

/-- The `calculateDocumentStatistics` computation (lines 212-225).  The
sentence split on `/[.!?]+/` keeps only pieces with a non-empty trim, which
makes the single-separator split below agree with the JS run-collapsing
split. -/
def calculateDocumentStatistics (chunks : List String) : DocStats :=
  let totalText := String.intercalate " " chunks
  let words := rawTokens totalText
  let sentences :=
    ((splitCh (fun c => c = '.' ∨ c = '!' ∨ c = '?') totalText.toList).map
      List.asString).filter fun s => ¬ s.toList.all (·.isWhitespace)
  { totalChunks := chunks.length
    totalWords := words.length
    totalSentences := sentences.length
    avgWordsPerChunk := jsRound ((words.length : ℚ) / (chunks.length : ℚ))
    avgSentencesPerChunk := jsRound ((sentences.length : ℚ) / (chunks.length : ℚ))
    complexity := calculateComplexity totalText }

/-- Per-document record stored in `this.documents` by `addDocument`
(lines 35-44).  `metadata` is kept as the filename string the claims need;
`addedAt` is the (externally supplied) creation timestamp in milliseconds. -/
structure DocData where
  id : String
  chunks : List String
  metadata : String
  embeddings : List TextEmbedding
  addedAt : ℚ
  sessionId : String
  keywords : List String
  statistics : DocStats
  deriving DecidableEq

/-- Per-chunk record stored in `this.embeddings` by `addDocument`
(lines 58-67). -/
structure EmbEntry where
  documentId : String
  chunkIndex : ℕ
  text : String
  embedding : TextEmbedding
  metadata : String
  keywords : List String
  vectors : List String
  deriving DecidableEq

/-- State of the `EnhancedVectorDatabase` (constructor, lines 10-18): three
insertion-ordered maps.  The `natural.TfIdf` accumulator is omitted: no
search path of the source reads it. -/
structure VDB where
  documents : List (String × DocData)
  embeddings : List (String × EmbEntry)
  sessionDocuments : List (String × List String)
  deriving DecidableEq

/-- Empty store. -/
def emptyVDB : VDB :=
  { documents := [], embeddings := [], sessionDocuments := [] }

/-- JS `Map.set`: overwrite in place when the key exists, append otherwise. -/
def mapSet {α : Type} (k : String) (v : α) (m : List (String × α)) :
    List (String × α) :=
  if m.any (·.1 = k) then m.map fun p => if p.1 = k then (k, v) else p
  else m ++ [(k, v)]

/-- JS `Map.delete`. -/
def mapDelete {α : Type} (k : String) (m : List (String × α)) :
    List (String × α) :=
  m.filter fun p => p.1 ≠ k

/-- Document ids registered under a session (empty when unregistered). -/
def sessionDocsOf (st : VDB) (s : String) : List String :=
  (st.sessionDocuments.lookup s).getD []

/-- The `addDocument` operation (lines 26-76) for chunks that are plain
strings: builds the per-document record, registers the document under the
session (appending to the session's list, creating it if absent), and
stores one `EmbEntry` per chunk under the key `documentId ++ "_" ++ index`. -/
def addDocument (L : Libs) (documentId : String) (chunks : List String)
    (metadata : String) (sessionId : String) (now : ℚ) (st : VDB) : VDB :=
  let embeddings := chunks.map (createTextEmbedding L)
  let docData : DocData :=
    { id := documentId
      chunks := chunks
      metadata := metadata
      embeddings := embeddings
      addedAt := now
      sessionId := sessionId
      keywords := extractDocumentKeywords L (String.intercalate " " chunks)
      statistics := calculateDocumentStatistics chunks }
  let sessions :=
    match st.sessionDocuments.lookup sessionId with
    | some l => mapSet sessionId (l ++ [documentId]) st.sessionDocuments
    | none => st.sessionDocuments ++ [(sessionId, [documentId])]
  let embMap := chunks.enum.foldl
    (fun m p =>
      mapSet (documentId ++ "_" ++ toString p.1)
        { documentId := documentId
          chunkIndex := p.1
          text := p.2
          embedding := createTextEmbedding L p.2
          metadata := metadata
          keywords := extractChunkKeywords L p.2
          vectors := createWordVectors L p.2 } m)
    st.embeddings
  { documents := mapSet documentId docData st.documents
    embeddings := embMap
    sessionDocuments := sessions }

/-- Ranked search result (lines 266-271 / 419-426).  The fallback path does
not set a `keywords` field in JS (it is `undefined` there, and every
consumer guards with `?.`); the model uses `[]` for it. -/
structure SearchResult where
  documentId : String
  chunkIndex : ℕ
  text : String
  metadata : String
  keywords : List String
  similarity : ℝ
  score : ℝ

/-- The `semanticSearch` operation (lines 240-282): embed the query once,
filter candidates by session (only when the sessionId is truthy AND
registered — an unregistered session leaves the candidate set unfiltered)
and by document ids (when given), keep candidates scoring strictly above
0.1, sort by descending similarity (stably), and truncate to `limit`. -/
noncomputable def semanticSearch (L : Libs) (st : VDB) (query : String)
    (sessionId : Option String) (limit : ℕ) (documentIds : Option (List String)) :
    List SearchResult :=
  let qe := createTextEmbedding L query
  let cands : List EmbEntry := st.embeddings.map Prod.snd
  let cands : List EmbEntry :=
    match sessionId with
    | some s =>
      if s ≠ "" ∧ (st.sessionDocuments.lookup s).isSome then
        cands.filter fun e => (sessionDocsOf st s).contains e.documentId
      else cands
    | none => cands
  let cands : List EmbEntry :=
    match documentIds with
    | some ds => cands.filter fun e => ds.contains e.documentId
    | none => cands
  let results : List SearchResult := cands.filterMap fun e =>
    let s := calculateEnhancedSimilarity qe e.embedding
    if (0.1 : ℝ) < s then
      some { documentId := e.documentId, chunkIndex := e.chunkIndex,
             text := e.text, metadata := e.metadata, keywords := e.keywords,
             similarity := s, score := s }
    else none
  (results.mergeSort fun a b => decide (b.similarity ≤ a.similarity)).take limit

/-- Per-chunk score of the fallback text search (lines 395-417), defined for
queries having at least one word longer than 2 characters (otherwise the JS
score is `NaN`, handled in `fallbackTextSearch` below): +0.8 for an exact
lowercased phrase match, +0.6 times the fraction of long query words that
occur as substrings, +0.3 times the string similarity, and +0.2 when more
than one query word matches.  `fallbackQueryWords` is the
`query.toLowerCase().split(/\s+/).filter(w.length > 2)` of line 376. -/
def fallbackQueryWords (query : String) : List String :=
  (rawTokens (strLower query)).filter (2 < ·.length)

/-- Query words found as substrings of the lowercased chunk (line 406). -/
def fallbackMatching (query chunk : String) : List String :=
  (fallbackQueryWords query).filter fun w => containsStr (strLower chunk) w

def fallbackScore (L : Libs) (query chunk : String) : ℚ :=
  let phrase : ℚ :=
    if containsStr (strLower chunk) (strLower query) then 0.8 else 0
  let base := phrase +
    (((fallbackMatching query chunk).length : ℚ) /
      ((fallbackQueryWords query).length : ℚ)) * 0.6 +
    L.strSim (strLower query) (strLower chunk) * 0.3
  if 1 < (fallbackMatching query chunk).length then base + 0.2 else base

/-- The `fallbackTextSearch` operation (lines 374-434).  When the query has
no word longer than 2 characters every JS score is `NaN` (a `0/0` word
fraction), which fails the `score > 0.1` test, so no result is produced;
that case is returned as `[]` directly.  Otherwise: same session/document
filters as `semanticSearch`, a result per chunk scoring strictly above 0.1
with similarity capped at 1, sorted descending and truncated. -/
noncomputable def fallbackTextSearch (L : Libs) (st : VDB) (query : String)
    (sessionId : Option String) (limit : ℕ) (documentIds : Option (List String)) :
    List SearchResult :=
  if fallbackQueryWords query = [] then [] else
  let docs : List DocData := st.documents.map Prod.snd
  let docs : List DocData :=
    match sessionId with
    | some s =>
      if s ≠ "" ∧ (st.sessionDocuments.lookup s).isSome then
        docs.filter fun d => (sessionDocsOf st s).contains d.id
      else docs
    | none => docs
  let docs : List DocData :=
    match documentIds with
    | some ds => docs.filter fun d => ds.contains d.id
    | none => docs
  let results : List SearchResult := docs.flatMap fun d =>
    d.chunks.enum.filterMap fun (p : ℕ × String) =>
      let sc := fallbackScore L query p.2
      if (0.1 : ℚ) < sc then
        some { documentId := d.id, chunkIndex := p.1, text := p.2,
               metadata := d.metadata, keywords := [],
               similarity := ((min sc 1 : ℚ) : ℝ),
               score := ((min sc 1 : ℚ) : ℝ) }
      else none
  (results.mergeSort fun a b => decide (b.score ≤ a.score)).take limit

/-- Document quality bonus of `calculateDocumentQuality` (lines 473-494):
0.5 base, +0.2 for 50 < avgWordsPerChunk < 200, +0.2 for readability above
40, +0.1 for documents added within the last 7 days, capped at 1. -/
def calculateDocumentQuality (d : DocData) (now : ℚ) : ℚ :=
  let q : ℚ := 0.5
    + (if 50 < d.statistics.avgWordsPerChunk ∧ d.statistics.avgWordsPerChunk < 200
       then 0.2 else 0)
    + (if 40 < d.statistics.complexity.readabilityScore then 0.2 else 0)
    + (if (now - d.addedAt) / (1000 * 60 * 60 * 24) < 7 then 0.1 else 0)
  min q 1

/-- Maximum of a list of reals, as `Math.max(...xs)` computes it for a
non-empty argument list (the empty case is never reached by the source). -/
def jsMax : List ℝ → ℝ
  | [] => 0
  | h :: t => t.foldl max h

/-- Document group produced by `crossDocumentSearch` (lines 458-467). -/
structure CrossDocGroup where
  documentId : String
  chunks : List SearchResult
  avgSimilarity : ℝ
  maxSimilarity : ℝ
  chunkCount : ℕ
  qualityBonus : ℝ
  relevanceScore : ℝ

/-- Grouping of search results by document id in first-occurrence order,
appending each result to its document's bucket; models the
`documentGroups` object of lines 440-446. -/
def groupStep (acc : List (String × List SearchResult)) (r : SearchResult) :
    List (String × List SearchResult) :=
  if acc.any (·.1 = r.documentId) then
    acc.map fun p => if p.1 = r.documentId then (p.1, p.2 ++ [r]) else p
  else acc ++ [(r.documentId, [r])]

def groupByDoc (rs : List SearchResult) : List (String × List SearchResult) :=
  rs.foldl groupStep []

/-- Group record construction of lines 449-467: average and maximum are
computed from the group's results, the stored chunk list is sorted by
descending similarity, and the relevance score is
`0.4*avg + 0.4*max + 0.1*ln(chunkCount+1) + 0.1*qualityBonus`. -/
noncomputable def mkCrossDocGroup (st : VDB) (now : ℚ) (docId : String)
    (chunks : List SearchResult) : CrossDocGroup :=
  let sims := chunks.map (·.similarity)
  let avg : ℝ := sims.sum / (chunks.length : ℝ)
  let mx : ℝ := jsMax sims
  let quality : ℝ :=
    match st.documents.lookup docId with
    | some d => ((calculateDocumentQuality d now : ℚ) : ℝ)
    | none => 0
  { documentId := docId
    chunks := chunks.mergeSort fun a b => decide (b.similarity ≤ a.similarity)
    avgSimilarity := avg
    maxSimilarity := mx
    chunkCount := chunks.length
    qualityBonus := quality
    relevanceScore := avg * 0.4 + mx * 0.4 +
      Real.log ((chunks.length : ℝ) + 1) * 0.1 + quality * 0.1 }

/-- The `crossDocumentSearch` operation (lines 436-471): search with an
inflated limit of `2 * limit`, group by document, build the group records,
sort by descending relevance and truncate to `limit`. -/
noncomputable def crossDocumentSearch (L : Libs) (st : VDB) (query : String)
    (sessionId : Option String) (limit : ℕ) (now : ℚ) : List CrossDocGroup :=
  let results := semanticSearch L st query sessionId (limit * 2) none
  (((groupByDoc results).map fun p => mkCrossDocGroup st now p.1 p.2).mergeSort
      fun a b => decide (b.relevanceScore ≤ a.relevanceScore)).take limit

/-- Greedy packing loop of `getRelevantContext` (lines 511-530): walk the
ranked results accumulating `text.length * 0.25` tokens, stopping (and
dropping the rest) at the first result that would push the running total
strictly past the budget.  Returns the results included in the context. -/
def packContext : List SearchResult → ℚ → ℚ → List SearchResult
  | [], _, _ => []
  | r :: rs, tok, maxT =>
    let t : ℚ := (r.text.length : ℚ) * 0.25
    if maxT < tok + t then [] else r :: packContext rs (tok + t) maxT

/-- Source attribution record pushed for each included result
(lines 523-529). -/
structure SourceRef where
  documentId : String
  filename : String
  similarity : ℝ
  snippet : String
  keywords : List String

/-- Context confidence of `calculateContextConfidence` (lines 540-548). -/
noncomputable def calculateContextConfidence (rs : List SearchResult) : ℝ :=
  if rs = [] then 0 else
  let avg : ℝ := (rs.map (·.similarity)).sum / (rs.length : ℝ)
  let top : ℝ := ((rs.head?.map (·.similarity)).getD 0)
  min (avg * 0.5 + top * 0.3 + min ((rs.length : ℝ) / 10) 1 * 0.2) 1

/-- Result record of `getRelevantContext` (lines 503-538). -/
structure ContextResult where
  context : String
  sources : List SourceRef
  totalResults : ℕ
  confidence : ℝ
  error : Option String

/-- The `getRelevantContext` operation (lines 500-538): search with limit
20, return an error record on no results, otherwise pack greedily under the
budget and report at most 10 sources. -/
noncomputable def getRelevantContext (L : Libs) (st : VDB) (query : String)
    (sessionId : Option String) (maxTokens : ℚ) : ContextResult :=
  let results := semanticSearch L st query sessionId 20 none
  if results = [] then
    { context := "", sources := [], totalResults := 0, confidence := 0,
      error := some "No documents found for this session" }
  else
    let included := packContext results 0 maxTokens
    { context :=
        (String.join (included.map fun r => r.text ++ "\n\n")).trim
      sources := (included.map fun r =>
        { documentId := r.documentId
          filename := r.metadata
          similarity := r.similarity
          snippet := (r.text.toList.take 150).asString ++ "..."
          keywords := r.keywords.take 5 } : List SourceRef).take 10
      totalResults := results.length
      confidence := calculateContextConfidence results
      error := none }

/-- Estimated token count of one chunk as `getSessionStats` computes it
(line 592): `Math.ceil(chunk.length * 0.25)`. -/
def chunkTokens (c : String) : ℕ :=
  (⌈(c.length : ℚ) * 0.25⌉).toNat

/-- Statistics record returned by `getSessionStats` (lines 599-608). -/
structure SessionStats where
  documentCount : ℕ
  chunkCount : ℕ
  estimatedTokens : ℕ
  uniqueKeywords : List String
  lastUpdated : Option ℚ
  avgDocumentQuality : ℚ

/-- The `getSessionStats` operation (lines 585-609): resolve the session's
registered document ids against the document map (silently skipping ids
with no document), then aggregate counts, the token estimate, keywords,
the latest timestamp and the average quality. -/
def getSessionStats (st : VDB) (s : String) (now : ℚ) : SessionStats :=
  let docs := (sessionDocsOf st s).filterMap fun d => st.documents.lookup d
  { documentCount := docs.length
    chunkCount := (docs.map fun d => d.chunks.length).sum
    estimatedTokens := (docs.map fun d => (d.chunks.map chunkTokens).sum).sum
    uniqueKeywords := ((docs.map (·.keywords)).flatten).dedup.take 20
    lastUpdated :=
      match docs.map (·.addedAt) with
      | [] => none
      | t :: ts => some (ts.foldl max t)
    avgDocumentQuality :=
      if docs.length = 0 then 0
      else (docs.map fun d => calculateDocumentQuality d now).sum / docs.length }

/-- JS `String.prototype.startsWith`. -/
def strStartsWith (s p : String) : Bool :=
  decide (p.toList <+: s.toList)

/-- One step of the document-removal loop of `deleteSession`
(lines 615-624): delete the document entry and every embedding whose key
starts with `docId ++ "_"`. -/
def removeDocFromStore (acc : VDB) (d : String) : VDB :=
  { acc with
    documents := mapDelete d acc.documents
    embeddings := acc.embeddings.filter
      fun ke => ¬ strStartsWith ke.1 (d ++ "_") }

/-- The `deleteSession` operation (lines 611-630): for each document id
registered under the session, delete its document entry and every embedding
whose key starts with `docId ++ "_"`, then delete the session entry. -/
def deleteSession (s : String) (st : VDB) : VDB :=
  let st' := (sessionDocsOf st s).foldl removeDocFromStore st
  { st' with sessionDocuments := mapDelete s st'.sessionDocuments }

/-- Composite document relevance as the SPEC words it (for the refinement
comparison of claim C4): `0.4*avg + 0.6*max + 0.1*ln(chunkCount+1)`. -/
noncomputable def claimedRelevanceScore (avg mx : ℝ) (chunkCount : ℕ) : ℝ :=
  0.4 * avg + 0.6 * mx + 0.1 * Real.log ((chunkCount : ℝ) + 1)

/-- Token cost of a text as the SPEC words it (for claims C5 and C8):
`ceil(charLength / 4)`. -/
def specTokenCost (c : String) : ℤ :=
  ⌈(c.length : ℚ) / 4⌉

/-- Stopword table used by the concrete library instance below: a finite
subset of the `stopword` package's `eng` list that decides membership
correctly for every token processed in the concrete inputs of this file
(none of the remaining concrete tokens — cat, dog, sat, mat, good, bad,
window, x, y, z, w — occurs in `eng`). -/
def engStop : List String :=
  ["a", "an", "and", "are", "as", "at", "be", "by", "for", "from", "has",
   "he", "in", "is", "it", "its", "of", "on", "that", "the", "to", "was",
   "were", "will", "with", "what", "this"]

/-- Concrete instantiation of the external libraries, used by the concrete
counterexamples and witnesses below and faithful to the real libraries on
every token those concrete inputs produce:
* the Porter stemmer leaves each of the concrete tokens (cat, dog, the,
  sat, mat, on, good, bad, window, x, y, z, w) unchanged, so `stem` is the
  identity;
* `isStop` is membership in the `engStop` table above;
* `kwExtract` models `keyword.extract` with `return_changed_case` and
  `remove_duplicates`: the lowercased whitespace tokens with stopwords and
  duplicates removed (the concrete inputs contain no punctuation);
* `strSim` stands for `compareTwoStrings`; the theorems below consume only
  its nonnegativity, which they take as an explicit hypothesis, so the
  concrete instance fixes it at 0. -/
def concreteLibs : Libs :=
  { stem := id
    isStop := fun w => w ∈ engStop
    kwExtract := fun t =>
      some (((rawTokens (strLower t)).filter
        fun w => w ≠ "" ∧ w ∉ engStop).dedup)
    strSim := fun _ _ => 0 }

/-- Library instance in which the `keyword.extract` call throws, exercising
the `catch` branch of `extractChunkKeywords` (claim C9). -/
def failLibs : Libs :=
  { concreteLibs with kwExtract := fun _ => none }

/-! Helper lemmas about the similarity engine. -/

lemma allKeys_nodup (l1 l2 : List String) : (allKeysOf l1 l2).Nodup := by
  rw [allKeysOf]
  exact List.nodup_dedup _

lemma allKeys_toFinset (l1 l2 : List String) :
    (allKeysOf l1 l2).toFinset = l1.toFinset ∪ l2.toFinset := by
  rw [allKeysOf, vecKeys, vecKeys]
  ext x
  simp [List.mem_dedup]

lemma normQ_cast (l1 l2 : List String) :
    ((normQ l1 l2 : ℕ) : ℝ) =
      ∑ k ∈ l1.toFinset ∪ l2.toFinset, (l1.count k : ℝ) ^ 2 := by
  rw [normQ, Nat.cast_list_sum, List.map_map,
    ← List.sum_toFinset _ (allKeys_nodup l1 l2), allKeys_toFinset]
  exact Finset.sum_congr rfl fun k _ => by simp

lemma dotQ_cast (l1 l2 : List String) :
    ((dotQ l1 l2 : ℕ) : ℝ) =
      ∑ k ∈ l1.toFinset ∪ l2.toFinset, (l1.count k : ℝ) * (l2.count k : ℝ) := by
  rw [dotQ, Nat.cast_list_sum, List.map_map,
    ← List.sum_toFinset _ (allKeys_nodup l1 l2), allKeys_toFinset]
  exact Finset.sum_congr rfl fun k _ => by simp

lemma dotQ_sq_le (l1 l2 : List String) :
    ((dotQ l1 l2 : ℕ) : ℝ) ^ 2 ≤ ((normQ l1 l2 : ℕ) : ℝ) * ((normQ l2 l1 : ℕ) : ℝ) := by
  rw [dotQ_cast, normQ_cast, normQ_cast, Finset.union_comm l2.toFinset]
  exact Finset.sum_mul_sq_le_sq_mul_sq _ _ _

lemma cosineSim_nonneg (l1 l2 : List String) : 0 ≤ cosineSim l1 l2 := by
  rw [cosineSim]
  split
  · exact le_refl 0
  · split
    · exact le_refl 0
    · positivity

lemma cosineSim_le_one (l1 l2 : List String) : cosineSim l1 l2 ≤ 1 := by
  rw [cosineSim]
  split
  · exact zero_le_one
  · split
    · exact zero_le_one
    · rename_i h hn
      push_neg at hn
      have h1 : (0 : ℝ) < (normQ l1 l2 : ℝ) := by
        exact_mod_cast Nat.pos_of_ne_zero hn.1
      have h2 : (0 : ℝ) < (normQ l2 l1 : ℝ) := by
        exact_mod_cast Nat.pos_of_ne_zero hn.2
      rw [div_le_one (by positivity)]
      have hd : (0 : ℝ) ≤ (dotQ l1 l2 : ℝ) := by positivity
      have hprod : ((dotQ l1 l2 : ℕ) : ℝ) ^ 2 ≤
          (Real.sqrt (normQ l1 l2 : ℝ) * Real.sqrt (normQ l2 l1 : ℝ)) ^ 2 := by
        rw [mul_pow, Real.sq_sqrt h1.le, Real.sq_sqrt h2.le]
        exact dotQ_sq_le l1 l2
      exact (pow_le_pow_iff_left₀ hd (by positivity) (by norm_num)).1 hprod

lemma kwInterLen_le (k1 k2 : List String) : kwInterLen k1 k2 ≤ kwUnionLen k1 k2 := by
  rw [kwInterLen, kwUnionLen]
  have hsub : (((k1.map strLower).dedup).filter
      fun k => ((k2.map strLower).dedup).contains k) ⊆
      ((k1.map strLower).dedup ++ (k2.map strLower).dedup).dedup := by
    intro x hx
    rw [List.mem_dedup, List.mem_append]
    exact Or.inl (List.mem_of_mem_filter hx)
  have hnd : (((k1.map strLower).dedup).filter
      fun k => ((k2.map strLower).dedup).contains k).Nodup :=
    (List.nodup_dedup _).filter _
  calc (((k1.map strLower).dedup).filter
        fun k => ((k2.map strLower).dedup).contains k).length
      = (((k1.map strLower).dedup).filter
        fun k => ((k2.map strLower).dedup).contains k).toFinset.card :=
        (List.toFinset_card_of_nodup hnd).symm
    _ ≤ (((k1.map strLower).dedup ++ (k2.map strLower).dedup).dedup).toFinset.card :=
        Finset.card_le_card fun x hx => by
          rw [List.mem_toFinset] at hx ⊢
          exact hsub hx
    _ = (((k1.map strLower).dedup ++ (k2.map strLower).dedup).dedup).length :=
        List.toFinset_card_of_nodup (List.nodup_dedup _)

lemma calculateKeywordSimilarity_nonneg (k1 k2 : List String) :
    0 ≤ calculateKeywordSimilarity k1 k2 := by
  rw [calculateKeywordSimilarity]
  split
  · exact le_refl 0
  · positivity

lemma calculateKeywordSimilarity_le_one (k1 k2 : List String) :
    calculateKeywordSimilarity k1 k2 ≤ 1 := by
  rw [calculateKeywordSimilarity]
  split
  · exact zero_le_one
  · rcases Nat.eq_zero_or_pos (kwUnionLen k1 k2) with h | h
    · rw [h]
      norm_num
    · rw [div_le_one (by exact_mod_cast h)]
      exact_mod_cast kwInterLen_le k1 k2

lemma semMatches_le (a b : SemanticVector) : semMatches a b ≤ 7 := by
  rw [semMatches]
  split_ifs <;> omega

lemma calculateSemanticSimilarity_le_one (a b : SemanticVector) :
    calculateSemanticSimilarity a b ≤ 1 := by
  rw [calculateSemanticSimilarity]
  have h1 : ((semMatches a b : ℕ) : ℚ) ≤ 7 := by
    exact_mod_cast semMatches_le a b
  have h2 : (0 : ℚ) ≤ ((|a.sentiment - b.sentiment| : ℤ) : ℚ) := by positivity
  linarith

lemma calculateSemanticSimilarity_nonneg (a b : SemanticVector)
    (h : |a.sentiment - b.sentiment| ≤ 10) :
    0 ≤ calculateSemanticSimilarity a b := by
  rw [calculateSemanticSimilarity]
  have h1 : (0 : ℚ) ≤ ((semMatches a b : ℕ) : ℚ) := by positivity
  have h2 : ((|a.sentiment - b.sentiment| : ℤ) : ℚ) ≤ 10 := by
    exact_mod_cast h
  linarith

lemma createTextEmbedding_tfidf (L : Libs) (s : String) :
    (createTextEmbedding L s).tfidf = tfidfTokens L s := rfl

lemma createTextEmbedding_wordFreq (L : Libs) (s : String) :
    (createTextEmbedding L s).wordFreq = wordFreqTokens L s := rfl

lemma createTextEmbedding_semantic (L : Libs) (s : String) :
    (createTextEmbedding L s).semantic = mkSemanticVector s := rfl

lemma createTextEmbedding_keywords (L : Libs) (s : String) :
    (createTextEmbedding L s).keywords = extractChunkKeywords L s := rfl

lemma mkSemanticVector_sentiment (s : String) :
    (mkSemanticVector s).sentiment = calcSentiment s := rfl

lemma calculateEnhancedSimilarity_def (qe de : TextEmbedding) :
    calculateEnhancedSimilarity qe de =
      cosineSim qe.tfidf de.tfidf * 0.4 +
      cosineSim qe.wordFreq de.wordFreq * 0.3 +
      (calculateKeywordSimilarity qe.keywords de.keywords : ℝ) * 0.2 +
      (calculateSemanticSimilarity qe.semantic de.semantic : ℝ) * 0.1 := by
  rw [calculateEnhancedSimilarity, if_pos (by norm_num)]
  norm_num

/-- Claim C3, amended: the composite similarity score of
`calculateEnhancedSimilarity` lies in `[0, 1]` whenever the sentiment scores
of the two texts differ by at most 10 in absolute value.  (The upper bound
holds unconditionally; the lower bound genuinely needs the hypothesis —
see `C3_counterexample` — because the source applies no clamping.) -/
theorem C3_score_bounds (L : Libs) (q c : String)
    (h : |calcSentiment q - calcSentiment c| ≤ 10) :
    0 ≤ calculateEnhancedSimilarity (createTextEmbedding L q)
        (createTextEmbedding L c) ∧
    calculateEnhancedSimilarity (createTextEmbedding L q)
        (createTextEmbedding L c) ≤ 1 := by
  rw [calculateEnhancedSimilarity_def]
  have t0 := cosineSim_nonneg (createTextEmbedding L q).tfidf
    (createTextEmbedding L c).tfidf
  have t1 := cosineSim_le_one (createTextEmbedding L q).tfidf
    (createTextEmbedding L c).tfidf
  have w0 := cosineSim_nonneg (createTextEmbedding L q).wordFreq
    (createTextEmbedding L c).wordFreq
  have w1 := cosineSim_le_one (createTextEmbedding L q).wordFreq
    (createTextEmbedding L c).wordFreq
  have k0 : (0 : ℝ) ≤ (calculateKeywordSimilarity
      (createTextEmbedding L q).keywords (createTextEmbedding L c).keywords : ℝ) := by
    exact_mod_cast calculateKeywordSimilarity_nonneg _ _
  have k1 : (calculateKeywordSimilarity
      (createTextEmbedding L q).keywords (createTextEmbedding L c).keywords : ℝ) ≤ 1 := by
    exact_mod_cast calculateKeywordSimilarity_le_one _ _
  have hsent : |(createTextEmbedding L q).semantic.sentiment -
      (createTextEmbedding L c).semantic.sentiment| ≤ 10 := h
  have m0 : (0 : ℝ) ≤ (calculateSemanticSimilarity
      (createTextEmbedding L q).semantic (createTextEmbedding L c).semantic : ℝ) := by
    exact_mod_cast calculateSemanticSimilarity_nonneg _ _ hsent
  have m1 : (calculateSemanticSimilarity
      (createTextEmbedding L q).semantic (createTextEmbedding L c).semantic : ℝ) ≤ 1 := by
    exact_mod_cast calculateSemanticSimilarity_le_one _ _
  constructor <;> nlinarith

/-- Witness for `C3_score_bounds` at the concrete pair "cat" / "dog". -/
theorem C3_score_bounds_witness :
    |calcSentiment "cat" - calcSentiment "dog"| ≤ 10 ∧
    (0 ≤ calculateEnhancedSimilarity (createTextEmbedding concreteLibs "cat")
        (createTextEmbedding concreteLibs "dog") ∧
     calculateEnhancedSimilarity (createTextEmbedding concreteLibs "cat")
        (createTextEmbedding concreteLibs "dog") ≤ 1) :=
  ⟨by decide, C3_score_bounds concreteLibs "cat" "dog" (by decide)⟩

/-- Claim C3 as stated is false: for a query of eleven positive-lexicon
words and a chunk of eleven negative-lexicon words the sentiment-closeness
term is `1 - 22/10 < 0` and no clamping is applied, so the composite score
is `-1/100`, outside `[0, 1]`. -/
theorem C3_counterexample :
    calculateEnhancedSimilarity
      (createTextEmbedding concreteLibs
        "good good good good good good good good good good good")
      (createTextEmbedding concreteLibs
        "bad bad bad bad bad bad bad bad bad bad bad") = -(1/100) ∧
    ¬ (0 ≤ calculateEnhancedSimilarity
      (createTextEmbedding concreteLibs
        "good good good good good good good good good good good")
      (createTextEmbedding concreteLibs
        "bad bad bad bad bad bad bad bad bad bad bad")) := by
  have h1 : cosineSim
      (createTextEmbedding concreteLibs
        "good good good good good good good good good good good").tfidf
      (createTextEmbedding concreteLibs
        "bad bad bad bad bad bad bad bad bad bad bad").tfidf = 0 := by
    rw [cosineSim, if_pos (by decide)]
  have h2 : cosineSim
      (createTextEmbedding concreteLibs
        "good good good good good good good good good good good").wordFreq
      (createTextEmbedding concreteLibs
        "bad bad bad bad bad bad bad bad bad bad bad").wordFreq = 0 := by
    rw [cosineSim, if_pos (by decide)]
  have h3 : calculateKeywordSimilarity
      (createTextEmbedding concreteLibs
        "good good good good good good good good good good good").keywords
      (createTextEmbedding concreteLibs
        "bad bad bad bad bad bad bad bad bad bad bad").keywords = 0 := by
    rw [calculateKeywordSimilarity, if_neg (by decide)]
    rw [(by decide : kwInterLen
      (createTextEmbedding concreteLibs
        "good good good good good good good good good good good").keywords
      (createTextEmbedding concreteLibs
        "bad bad bad bad bad bad bad bad bad bad bad").keywords = 0)]
    norm_num
  have h4 : calculateSemanticSimilarity
      (createTextEmbedding concreteLibs
        "good good good good good good good good good good good").semantic
      (createTextEmbedding concreteLibs
        "bad bad bad bad bad bad bad bad bad bad bad").semantic = -(1/10) := by
    rw [calculateSemanticSimilarity]
    rw [(by decide : semMatches
      (createTextEmbedding concreteLibs
        "good good good good good good good good good good good").semantic
      (createTextEmbedding concreteLibs
        "bad bad bad bad bad bad bad bad bad bad bad").semantic = 7)]
    rw [(by decide : |(createTextEmbedding concreteLibs
        "good good good good good good good good good good good").semantic.sentiment -
      (createTextEmbedding concreteLibs
        "bad bad bad bad bad bad bad bad bad bad bad").semantic.sentiment| = 22)]
    norm_num
  rw [calculateEnhancedSimilarity_def, h1, h2, h3, h4]
  norm_num

lemma cosineSim_eq_zero_of_disjoint (l1 l2 : List String)
    (h : l1 ∩ l2 = []) : cosineSim l1 l2 = 0 := by
  have hd : l1.Disjoint l2 := List.inter_eq_nil_iff_disjoint.1 h
  rw [cosineSim, if_pos]
  rw [List.filter_eq_nil_iff]
  intro k hk
  rw [vecKeys, List.mem_dedup] at hk
  intro hc
  rw [List.elem_iff, vecKeys, List.mem_dedup] at hc
  exact hd hk hc

lemma calculateKeywordSimilarity_eq_zero (k1 k2 : List String)
    (h : kwInterLen k1 k2 = 0) : calculateKeywordSimilarity k1 k2 = 0 := by
  rw [calculateKeywordSimilarity]
  split
  · rfl
  · rw [h]
    norm_num

/-- Claim C6, amended: when query and chunk share no stemmed terms (both the
TF-IDF and the word-frequency token lists are disjoint), their keyword sets
do not intersect, and the phrase bonus is zero, the composite score equals
`0.1` times the semantic-feature similarity (hence is at most `0.1`) rather
than `0`: the semantic-agreement term survives term disjointness. -/
theorem C6_disjoint_score (L : Libs) (q c : String)
    (h1 : tfidfTokens L q ∩ tfidfTokens L c = [])
    (h2 : wordFreqTokens L q ∩ wordFreqTokens L c = [])
    (h3 : kwInterLen (extractChunkKeywords L q) (extractChunkKeywords L c) = 0)
    (_h4 : containsStr (strLower c) (strLower q) = false) :
    calculateEnhancedSimilarity (createTextEmbedding L q)
        (createTextEmbedding L c) =
      (calculateSemanticSimilarity (mkSemanticVector q)
        (mkSemanticVector c) : ℝ) * 0.1 ∧
    calculateEnhancedSimilarity (createTextEmbedding L q)
        (createTextEmbedding L c) ≤ 1 / 10 := by
  have e1 : cosineSim (createTextEmbedding L q).tfidf
      (createTextEmbedding L c).tfidf = 0 := by
    rw [createTextEmbedding_tfidf, createTextEmbedding_tfidf]
    exact cosineSim_eq_zero_of_disjoint _ _ h1
  have e2 : cosineSim (createTextEmbedding L q).wordFreq
      (createTextEmbedding L c).wordFreq = 0 := by
    rw [createTextEmbedding_wordFreq, createTextEmbedding_wordFreq]
    exact cosineSim_eq_zero_of_disjoint _ _ h2
  have e3 : calculateKeywordSimilarity (createTextEmbedding L q).keywords
      (createTextEmbedding L c).keywords = 0 := by
    rw [createTextEmbedding_keywords, createTextEmbedding_keywords]
    exact calculateKeywordSimilarity_eq_zero _ _ h3
  have heq : calculateEnhancedSimilarity (createTextEmbedding L q)
      (createTextEmbedding L c) =
      (calculateSemanticSimilarity (mkSemanticVector q)
        (mkSemanticVector c) : ℝ) * 0.1 := by
    rw [calculateEnhancedSimilarity_def, e1, e2, e3,
      createTextEmbedding_semantic, createTextEmbedding_semantic]
    ring
  refine ⟨heq, ?_⟩
  rw [heq]
  have hm : (calculateSemanticSimilarity (mkSemanticVector q)
      (mkSemanticVector c) : ℝ) ≤ 1 := by
    exact_mod_cast calculateSemanticSimilarity_le_one _ _
  nlinarith

/-- Witness for `C6_disjoint_score` at the concrete pair "cat" / "dog". -/
theorem C6_disjoint_score_witness :
    (tfidfTokens concreteLibs "cat" ∩ tfidfTokens concreteLibs "dog" = [] ∧
     wordFreqTokens concreteLibs "cat" ∩ wordFreqTokens concreteLibs "dog" = [] ∧
     kwInterLen (extractChunkKeywords concreteLibs "cat")
       (extractChunkKeywords concreteLibs "dog") = 0 ∧
     containsStr (strLower "dog") (strLower "cat") = false) ∧
    (calculateEnhancedSimilarity (createTextEmbedding concreteLibs "cat")
        (createTextEmbedding concreteLibs "dog") =
      (calculateSemanticSimilarity (mkSemanticVector "cat")
        (mkSemanticVector "dog") : ℝ) * 0.1 ∧
     calculateEnhancedSimilarity (createTextEmbedding concreteLibs "cat")
        (createTextEmbedding concreteLibs "dog") ≤ 1 / 10) :=
  ⟨⟨by decide, by decide, by decide, by decide⟩,
    C6_disjoint_score concreteLibs "cat" "dog" (by decide) (by decide)
      (by decide) (by decide)⟩

/-- Claim C6 as stated is false: "cat" and "dog" share no stemmed terms,
have disjoint keyword sets and no phrase match, yet the score is `1/10`
(the seven semantic flags agree and both sentiments are 0), not `0`. -/
theorem C6_counterexample :
    tfidfTokens concreteLibs "cat" ∩ tfidfTokens concreteLibs "dog" = [] ∧
    wordFreqTokens concreteLibs "cat" ∩ wordFreqTokens concreteLibs "dog" = [] ∧
    kwInterLen (extractChunkKeywords concreteLibs "cat")
      (extractChunkKeywords concreteLibs "dog") = 0 ∧
    containsStr (strLower "dog") (strLower "cat") = false ∧
    calculateEnhancedSimilarity (createTextEmbedding concreteLibs "cat")
      (createTextEmbedding concreteLibs "dog") = 1 / 10 ∧
    (1 / 10 : ℝ) ≠ 0 := by
  refine ⟨by decide, by decide, by decide, by decide, ?_, by norm_num⟩
  have h4 : calculateSemanticSimilarity (mkSemanticVector "cat")
      (mkSemanticVector "dog") = 1 := by
    rw [calculateSemanticSimilarity,
      (by decide : semMatches (mkSemanticVector "cat") (mkSemanticVector "dog") = 7),
      (by decide : |(mkSemanticVector "cat").sentiment -
        (mkSemanticVector "dog").sentiment| = 0)]
    norm_num
  have e1 : cosineSim (createTextEmbedding concreteLibs "cat").tfidf
      (createTextEmbedding concreteLibs "dog").tfidf = 0 := by
    rw [cosineSim, if_pos (by decide)]
  have e2 : cosineSim (createTextEmbedding concreteLibs "cat").wordFreq
      (createTextEmbedding concreteLibs "dog").wordFreq = 0 := by
    rw [cosineSim, if_pos (by decide)]
  have e3 : calculateKeywordSimilarity
      (createTextEmbedding concreteLibs "cat").keywords
      (createTextEmbedding concreteLibs "dog").keywords = 0 := by
    rw [calculateKeywordSimilarity, if_neg (by decide)]
    rw [(by decide : kwInterLen
      (createTextEmbedding concreteLibs "cat").keywords
      (createTextEmbedding concreteLibs "dog").keywords = 0)]
    norm_num
  rw [calculateEnhancedSimilarity_def, e1, e2, e3,
    createTextEmbedding_semantic, createTextEmbedding_semantic, h4]
  norm_num

/-- Claim C1, amended: the phrase-match bonus lives only in the FALLBACK
text search, not in the primary scorer (which never sees the raw texts and
has no phrase term — see `C1_counterexample`).  On the fallback path, for
every query with at least one word longer than two characters whose
lowercased text occurs verbatim in the chunk, the computed score is at
least 0.8, and so is the similarity recorded after capping at 1
(assuming the external string-similarity value is nonnegative, as the
Dice coefficient is). -/
theorem C1_phrase_bonus_fallback (L : Libs) (q c : String)
    (_hw : fallbackQueryWords q ≠ [])
    (hc : containsStr (strLower c) (strLower q) = true)
    (hs : 0 ≤ L.strSim (strLower q) (strLower c)) :
    4 / 5 ≤ fallbackScore L q c ∧ 4 / 5 ≤ min (fallbackScore L q c) 1 := by
  have hmain : (4 / 5 : ℚ) ≤ fallbackScore L q c := by
    rw [fallbackScore]
    simp only [hc, if_true]
    have hfrac : (0 : ℚ) ≤
        ((fallbackMatching q c).length : ℚ) /
        ((fallbackQueryWords q).length : ℚ) := by
      positivity
    split
    · nlinarith [hfrac, hs]
    · nlinarith [hfrac, hs]
  exact ⟨hmain, le_min hmain (by norm_num)⟩

/-- Witness for `C1_phrase_bonus_fallback` at the query and chunk
"cat dog". -/
theorem C1_phrase_bonus_fallback_witness :
    (fallbackQueryWords "cat dog" ≠ [] ∧
     containsStr (strLower "cat dog") (strLower "cat dog") = true ∧
     0 ≤ concreteLibs.strSim (strLower "cat dog") (strLower "cat dog")) ∧
    (4 / 5 ≤ fallbackScore concreteLibs "cat dog" "cat dog" ∧
     4 / 5 ≤ min (fallbackScore concreteLibs "cat dog" "cat dog") 1) :=
  ⟨⟨by decide, by decide, by decide⟩,
    C1_phrase_bonus_fallback concreteLibs "cat dog" "cat dog" (by decide)
      (by decide) (by decide)⟩

/-- Claim C1 as stated is false: the chunk "the cat sat on the mat"
contains the non-empty query "the" verbatim, yet the similarity computed by
the primary scorer used by `semanticSearch` is `1/10 < 0.8` — after
stemming and stopword removal the query's term vectors and keyword list are
empty, and the primary scorer has no phrase-match term at all. -/
theorem C1_counterexample :
    containsStr (strLower "the cat sat on the mat") (strLower "the") = true ∧
    calculateEnhancedSimilarity (createTextEmbedding concreteLibs "the")
      (createTextEmbedding concreteLibs "the cat sat on the mat") = 1 / 10 ∧
    ¬ (4 / 5 ≤ calculateEnhancedSimilarity
      (createTextEmbedding concreteLibs "the")
      (createTextEmbedding concreteLibs "the cat sat on the mat")) := by
  have e1 : cosineSim (createTextEmbedding concreteLibs "the").tfidf
      (createTextEmbedding concreteLibs "the cat sat on the mat").tfidf = 0 := by
    rw [cosineSim, if_pos (by decide)]
  have e2 : cosineSim (createTextEmbedding concreteLibs "the").wordFreq
      (createTextEmbedding concreteLibs "the cat sat on the mat").wordFreq = 0 := by
    rw [cosineSim, if_pos (by decide)]
  have e3 : calculateKeywordSimilarity
      (createTextEmbedding concreteLibs "the").keywords
      (createTextEmbedding concreteLibs "the cat sat on the mat").keywords = 0 := by
    rw [calculateKeywordSimilarity, if_pos (by decide)]
  have e4 : calculateSemanticSimilarity
      (createTextEmbedding concreteLibs "the").semantic
      (createTextEmbedding concreteLibs "the cat sat on the mat").semantic = 1 := by
    rw [calculateSemanticSimilarity,
      (by decide : semMatches (createTextEmbedding concreteLibs "the").semantic
        (createTextEmbedding concreteLibs "the cat sat on the mat").semantic = 7),
      (by decide : |(createTextEmbedding concreteLibs "the").semantic.sentiment -
        (createTextEmbedding concreteLibs
          "the cat sat on the mat").semantic.sentiment| = 0)]
    norm_num
  have hval : calculateEnhancedSimilarity (createTextEmbedding concreteLibs "the")
      (createTextEmbedding concreteLibs "the cat sat on the mat") = 1 / 10 := by
    rw [calculateEnhancedSimilarity_def, e1, e2, e3, e4]
    norm_num
  refine ⟨by decide, hval, ?_⟩
  rw [hval]
  norm_num

/-- Claim C9, amended: feature extraction is total, but a failing keyword
extraction does NOT empty the feature record.  When the `keyword.extract`
call throws, the keyword list degrades to `fallbackKeywordExtraction` (up
to 10 frequency-ranked stemmed words, each longer than 3 characters), while
the term-frequency structures and the sentiment are computed normally,
unchanged. -/
theorem C9_keyword_fallback (L : Libs) (t : String)
    (h : L.kwExtract t = none) :
    (createTextEmbedding L t).keywords = fallbackKeywordExtraction L t ∧
    (createTextEmbedding L t).keywords.Forall (fun w => 3 < w.length) ∧
    (createTextEmbedding L t).keywords.length ≤ 10 ∧
    (createTextEmbedding L t).tfidf = tfidfTokens L t ∧
    (createTextEmbedding L t).wordFreq = wordFreqTokens L t ∧
    (createTextEmbedding L t).semantic.sentiment = calcSentiment t := by
  have hk : (createTextEmbedding L t).keywords = fallbackKeywordExtraction L t := by
    rw [createTextEmbedding_keywords, extractChunkKeywords, h]
  refine ⟨hk, ?_, ?_, rfl, rfl, rfl⟩
  · rw [hk, List.forall_iff_forall_mem]
    intro w hw
    rw [fallbackKeywordExtraction] at hw
    obtain ⟨p, hp, rfl⟩ := List.mem_map.1 hw
    have hp2 := List.mem_mergeSort.1 (List.mem_of_mem_take hp)
    rw [wordCounts] at hp2
    obtain ⟨w', hw', heq⟩ := List.mem_map.1 hp2
    have hw'' : w' ∈ ((removeStop L (preprocessTokens t)).map L.stem).filter
        (3 < ·.length) := List.mem_dedup.1 hw'
    have := List.of_mem_filter hw''
    simp only [decide_eq_true_eq] at this
    rw [← heq]
    exact this
  · rw [hk, fallbackKeywordExtraction, List.length_map]
    exact List.length_take_le _ _

/-- Witness for `C9_keyword_fallback` with the throwing library instance at
the text "window window". -/
theorem C9_keyword_fallback_witness :
    failLibs.kwExtract "window window" = none ∧
    ((createTextEmbedding failLibs "window window").keywords =
        fallbackKeywordExtraction failLibs "window window" ∧
     (createTextEmbedding failLibs "window window").keywords.Forall
        (fun w => 3 < w.length) ∧
     (createTextEmbedding failLibs "window window").keywords.length ≤ 10 ∧
     (createTextEmbedding failLibs "window window").tfidf =
        tfidfTokens failLibs "window window" ∧
     (createTextEmbedding failLibs "window window").wordFreq =
        wordFreqTokens failLibs "window window" ∧
     (createTextEmbedding failLibs "window window").semantic.sentiment =
        calcSentiment "window window") :=
  ⟨rfl, C9_keyword_fallback failLibs "window window" rfl⟩

/-- Claim C9 as stated is false: with a throwing keyword extractor, the
feature record for "window window" has keyword list `["window"]` (from the
frequency fallback) and a non-empty term-frequency structure, not empty
collections. -/
theorem C9_counterexample :
    failLibs.kwExtract "window window" = none ∧
    (createTextEmbedding failLibs "window window").keywords = ["window"] ∧
    (createTextEmbedding failLibs "window window").keywords ≠ [] ∧
    (createTextEmbedding failLibs "window window").tfidf ≠ [] := by
  have hk : (createTextEmbedding failLibs "window window").keywords =
      ["window"] := by
    rw [createTextEmbedding_keywords, extractChunkKeywords,
      (rfl : failLibs.kwExtract "window window" = none),
      fallbackKeywordExtraction,
      (by decide : wordCounts
        ((((removeStop failLibs (preprocessTokens "window window"))).map
          failLibs.stem).filter (3 < ·.length)) = [("window", 2)]),
      List.mergeSort_singleton]
    rfl
  refine ⟨rfl, hk, ?_, by decide⟩
  rw [hk]
  decide

lemma packContext_spec (rs : List SearchResult) (tok maxT : ℚ)
    (h : tok ≤ maxT) :
    ∃ n, packContext rs tok maxT = rs.take n ∧
      tok + ((rs.take n).map fun r => (r.text.length : ℚ) * 0.25).sum ≤ maxT := by
  induction rs generalizing tok with
  | nil =>
    refine ⟨0, rfl, ?_⟩
    simpa using h
  | cons r rs ih =>
    by_cases hc : maxT < tok + (r.text.length : ℚ) * 0.25
    · refine ⟨0, ?_, by simpa using h⟩
      rw [packContext, if_pos hc]
      rfl
    · push_neg at hc
      obtain ⟨n, hn1, hn2⟩ := ih (tok + (r.text.length : ℚ) * 0.25) hc
      refine ⟨n + 1, ?_, ?_⟩
      · rw [packContext, if_neg (not_lt.2 hc), hn1]
        rfl
      · rw [List.take_succ_cons, List.map_cons, List.sum_cons]
        linarith

/-- Claim C5, amended: the packing loop of `getRelevantContext` estimates
each result's token cost as exactly `charLength * 0.25` (no ceiling), and
with a nonnegative budget the included results form a PREFIX of the ranked
list — each included whole, a result that would overflow ends the loop —
whose total estimated cost stays within `maxTokens`.  (With the spec's
`ceil(len/4)` estimator the budget can be exceeded —
see `C5_counterexample`.) -/
theorem C5_budget_prefix (results : List SearchResult) (maxT : ℚ)
    (h : 0 ≤ maxT) :
    ∃ n, packContext results 0 maxT = results.take n ∧
      ((results.take n).map fun r => (r.text.length : ℚ) * 0.25).sum ≤ maxT := by
  obtain ⟨n, h1, h2⟩ := packContext_spec results 0 maxT h
  exact ⟨n, h1, by linarith⟩

/-- Witness for `C5_budget_prefix` on a one-result list and budget 5. -/
theorem C5_budget_prefix_witness :
    (0 : ℚ) ≤ 5 ∧
    ∃ n, packContext [⟨"d", 0, "ab", "m", [], 1, 1⟩] 0 5 =
        [(⟨"d", 0, "ab", "m", [], 1, 1⟩ : SearchResult)].take n ∧
      (([(⟨"d", 0, "ab", "m", [], 1, 1⟩ : SearchResult)].take n).map
        fun r => (r.text.length : ℚ) * 0.25).sum ≤ 5 :=
  ⟨by norm_num, C5_budget_prefix [⟨"d", 0, "ab", "m", [], 1, 1⟩] 5 (by norm_num)⟩

/-- Claim C5 as stated is false: with budget 1 and two results of 2
characters each, the loop includes both (each costs `2 * 0.25 = 0.5`, total
exactly 1), but the spec's estimator `ceil(len/4)` charges 1 per result,
total 2, exceeding the budget. -/
theorem C5_counterexample :
    packContext [⟨"d", 0, "ab", "m", [], 1, 1⟩, ⟨"d", 1, "cd", "m", [], 1, 1⟩]
        0 1 =
      [⟨"d", 0, "ab", "m", [], 1, 1⟩, ⟨"d", 1, "cd", "m", [], 1, 1⟩] ∧
    ([(⟨"d", 0, "ab", "m", [], 1, 1⟩ : SearchResult),
      ⟨"d", 1, "cd", "m", [], 1, 1⟩].map fun r => specTokenCost r.text).sum = 2 ∧
    ¬ ((2 : ℚ) ≤ 1) := by
  refine ⟨?_, ?_, by norm_num⟩
  · rw [packContext,
      if_neg (by rw [show "ab".length = 2 from rfl]; norm_num),
      packContext,
      if_neg (by rw [show "ab".length = 2 from rfl,
        show "cd".length = 2 from rfl]; norm_num)]
    rfl
  · have h : specTokenCost "ab" = 1 := by
      rw [specTokenCost, show "ab".length = 2 from rfl, Int.ceil_eq_iff]
      norm_num
    have h2 : specTokenCost "cd" = 1 := by
      rw [specTokenCost, show "cd".length = 2 from rfl, Int.ceil_eq_iff]
      norm_num
    simp [h, h2]

/-- Claim C7: both search paths return at most `limit` results, and every
returned result has similarity at least 0.1 (the source filters with a
strict `> 0.1` before sorting and truncating, on the primary path and the
fallback text-search path alike). -/
theorem C7_limit_threshold (L : Libs) (st : VDB) (q : String)
    (sid : Option String) (lim : ℕ) (dids : Option (List String)) :
    (semanticSearch L st q sid lim dids).length ≤ lim ∧
    (semanticSearch L st q sid lim dids).Forall
      (fun r => (0.1 : ℝ) ≤ r.similarity) ∧
    (fallbackTextSearch L st q sid lim dids).length ≤ lim ∧
    (fallbackTextSearch L st q sid lim dids).Forall
      (fun r => (0.1 : ℝ) ≤ r.similarity) := by
  refine ⟨List.length_take_le _ _, ?_, ?_, ?_⟩
  · rw [List.forall_iff_forall_mem]
    intro r hr
    rw [semanticSearch.eq_def] at hr
    have hr2 := List.mem_mergeSort.1 (List.mem_of_mem_take hr)
    obtain ⟨e, _, hf⟩ := List.mem_filterMap.1 hr2
    by_cases h : (0.1 : ℝ) < calculateEnhancedSimilarity
        (createTextEmbedding L q) e.embedding
    · rw [if_pos h] at hf
      cases hf
      exact le_of_lt h
    · rw [if_neg h] at hf
      cases hf
  · rw [fallbackTextSearch.eq_def]
    split
    · exact Nat.zero_le _
    · exact List.length_take_le _ _
  · rw [fallbackTextSearch.eq_def]
    split
    · trivial
    · rw [List.forall_iff_forall_mem]
      intro r hr
      have hr2 := List.mem_mergeSort.1 (List.mem_of_mem_take hr)
      obtain ⟨d, _, hmem⟩ := List.mem_flatMap.1 hr2
      obtain ⟨p, _, hf⟩ := List.mem_filterMap.1 hmem
      by_cases h : (0.1 : ℚ) < fallbackScore L q p.2
      · rw [if_pos h] at hf
        cases hf
        have hq : (0.1 : ℚ) ≤ min (fallbackScore L q p.2) 1 :=
          le_of_lt (lt_min h (by norm_num))
        show (0.1 : ℝ) ≤ ((min (fallbackScore L q p.2) 1 : ℚ) : ℝ)
        calc (0.1 : ℝ) = ((0.1 : ℚ) : ℝ) := by norm_num
          _ ≤ _ := Rat.cast_le.2 hq
      · rw [if_neg h] at hf
        cases hf

lemma enhancedSelf_catdog : calculateEnhancedSimilarity
    (createTextEmbedding concreteLibs "cat dog")
    (createTextEmbedding concreteLibs "cat dog") = 1 := by
  have e1 : cosineSim (createTextEmbedding concreteLibs "cat dog").tfidf
      (createTextEmbedding concreteLibs "cat dog").tfidf = 1 := by
    rw [cosineSim, if_neg (by decide), if_neg (by decide),
      (by decide : dotQ (createTextEmbedding concreteLibs "cat dog").tfidf
        (createTextEmbedding concreteLibs "cat dog").tfidf = 2),
      (by decide : normQ (createTextEmbedding concreteLibs "cat dog").tfidf
        (createTextEmbedding concreteLibs "cat dog").tfidf = 2)]
    rw [show ((2 : ℕ) : ℝ) = 2 by norm_num, Real.mul_self_sqrt (by norm_num)]
    norm_num
  have e2 : cosineSim (createTextEmbedding concreteLibs "cat dog").wordFreq
      (createTextEmbedding concreteLibs "cat dog").wordFreq = 1 := by
    rw [cosineSim, if_neg (by decide), if_neg (by decide),
      (by decide : dotQ (createTextEmbedding concreteLibs "cat dog").wordFreq
        (createTextEmbedding concreteLibs "cat dog").wordFreq = 2),
      (by decide : normQ (createTextEmbedding concreteLibs "cat dog").wordFreq
        (createTextEmbedding concreteLibs "cat dog").wordFreq = 2)]
    rw [show ((2 : ℕ) : ℝ) = 2 by norm_num, Real.mul_self_sqrt (by norm_num)]
    norm_num
  have e3 : calculateKeywordSimilarity
      (createTextEmbedding concreteLibs "cat dog").keywords
      (createTextEmbedding concreteLibs "cat dog").keywords = 1 := by
    rw [calculateKeywordSimilarity, if_neg (by decide),
      (by decide : kwInterLen
        (createTextEmbedding concreteLibs "cat dog").keywords
        (createTextEmbedding concreteLibs "cat dog").keywords = 2),
      (by decide : kwUnionLen
        (createTextEmbedding concreteLibs "cat dog").keywords
        (createTextEmbedding concreteLibs "cat dog").keywords = 2)]
    norm_num
  have e4 : calculateSemanticSimilarity
      (createTextEmbedding concreteLibs "cat dog").semantic
      (createTextEmbedding concreteLibs "cat dog").semantic = 1 := by
    rw [calculateSemanticSimilarity,
      (by decide : semMatches
        (createTextEmbedding concreteLibs "cat dog").semantic
        (createTextEmbedding concreteLibs "cat dog").semantic = 7),
      (by decide : |(createTextEmbedding concreteLibs "cat dog").semantic.sentiment -
        (createTextEmbedding concreteLibs "cat dog").semantic.sentiment| = 0)]
    norm_num
  rw [calculateEnhancedSimilarity_def, e1, e2, e3, e4]
  norm_num

/-- Claim C2, amended: for a sessionId that is not registered in the
session index — in particular immediately after `deleteSession` — the
session filter of `semanticSearch` is simply SKIPPED, so the search runs
over the entire corpus exactly as a search with no sessionId does; an empty
result list is not guaranteed (see `C2_counterexample`, where another
session's chunk is returned). -/
theorem C2_unregistered_session_unfiltered (L : Libs) (st : VDB) (q : String)
    (s : String) (lim : ℕ) (dids : Option (List String))
    (h : st.sessionDocuments.lookup s = none) :
    semanticSearch L st q (some s) lim dids =
      semanticSearch L st q none lim dids := by
  rw [semanticSearch.eq_def, semanticSearch.eq_def]
  simp only [h, Option.isSome_none, Bool.false_eq_true, and_false, if_false]

/-- Witness for `C2_unregistered_session_unfiltered` on the empty store. -/
theorem C2_unregistered_session_unfiltered_witness :
    emptyVDB.sessionDocuments.lookup "s1" = none ∧
    semanticSearch concreteLibs emptyVDB "cat dog" (some "s1") 10 none =
      semanticSearch concreteLibs emptyVDB "cat dog" none 10 none :=
  ⟨rfl, C2_unregistered_session_unfiltered concreteLibs emptyVDB "cat dog"
    "s1" 10 none rfl⟩

/-- Claim C2 as stated is false: after ingesting document d1 ("cat dog")
under session s2 and document d2 under session s1 and then deleting session
s1, a search with the now-unregistered sessionId s1 does NOT return the
empty list — the session filter is skipped and session s2's chunk (a
perfect match for the query) is returned. -/
theorem C2_counterexample :
    (deleteSession "s1" (addDocument concreteLibs "d2" ["x y"] "m" "s1" 0
      (addDocument concreteLibs "d1" ["cat dog"] "m" "s2" 0
        emptyVDB))).sessionDocuments.lookup "s1" = none ∧
    semanticSearch concreteLibs
      (deleteSession "s1" (addDocument concreteLibs "d2" ["x y"] "m" "s1" 0
        (addDocument concreteLibs "d1" ["cat dog"] "m" "s2" 0 emptyVDB)))
      "cat dog" (some "s1") 10 none ≠ [] := by
  have hemb : (deleteSession "s1" (addDocument concreteLibs "d2" ["x y"] "m"
      "s1" 0 (addDocument concreteLibs "d1" ["cat dog"] "m" "s2" 0
        emptyVDB))).embeddings =
      [("d1_0", ⟨"d1", 0, "cat dog", createTextEmbedding concreteLibs "cat dog",
        "m", extractChunkKeywords concreteLibs "cat dog",
        createWordVectors concreteLibs "cat dog"⟩)] := rfl
  have hsid : (deleteSession "s1" (addDocument concreteLibs "d2" ["x y"] "m"
      "s1" 0 (addDocument concreteLibs "d1" ["cat dog"] "m" "s2" 0
        emptyVDB))).sessionDocuments.lookup "s1" = none := rfl
  have hscore : (0.1 : ℝ) < calculateEnhancedSimilarity
      (createTextEmbedding concreteLibs "cat dog")
      (createTextEmbedding concreteLibs "cat dog") := by
    rw [enhancedSelf_catdog]
    norm_num
  refine ⟨hsid, ?_⟩
  rw [semanticSearch.eq_def]
  simp only [hemb, hsid, Option.isSome_none, Bool.false_eq_true, and_false,
    if_false, List.map_cons, List.map_nil, List.filterMap_cons,
    List.filterMap_nil]
  rw [if_pos hscore]
  simp [List.mergeSort_singleton]

lemma chunkTokens_eq_specTokenCost (c : String) :
    (chunkTokens c : ℤ) = specTokenCost c := by
  rw [chunkTokens, specTokenCost,
    Int.toNat_of_nonneg (Int.ceil_nonneg (by positivity))]
  congr 1
  ring

lemma chunks_tokens_sum_cast (cs : List String) :
    ((cs.map chunkTokens).sum : ℤ) = (cs.map specTokenCost).sum := by
  induction cs with
  | nil => rfl
  | cons c cs ih =>
    rw [List.map_cons, List.map_cons, List.sum_cons, List.sum_cons,
      Nat.cast_add, chunkTokens_eq_specTokenCost, ih]

lemma estTokens_eq (ids : List String) (m : List (String × DocData)) :
    (((((ids.filterMap fun d => m.lookup d).map
        fun doc => (doc.chunks.map chunkTokens).sum).sum : ℕ)) : ℤ) =
      (ids.map fun d =>
        match m.lookup d with
        | some doc => (doc.chunks.map specTokenCost).sum
        | none => 0).sum := by
  induction ids with
  | nil => rfl
  | cons d ids ih =>
    cases hl : m.lookup d with
    | none =>
      rw [List.filterMap_cons, List.map_cons, hl]
      dsimp only
      rw [List.sum_cons, ih, zero_add]
    | some doc =>
      rw [List.filterMap_cons, List.map_cons, hl]
      dsimp only
      rw [List.map_cons, List.sum_cons, List.sum_cons, Nat.cast_add,
        chunks_tokens_sum_cast, ih]

/-- Claim C8: the estimated token count reported by `getSessionStats`
equals the sum, over every document id registered under the session (the
registered list is assumed duplicate-free, which makes it the set of
registered documents) and every chunk of the document it resolves to, of
`ceil(chunk character count / 4)` — the source's `Math.ceil(len * 0.25)` is
exactly that ceiling, and an id with no document entry contributes no
chunks. -/
theorem C8_token_estimate (st : VDB) (s : String) (now : ℚ)
    (_h : (sessionDocsOf st s).Nodup) :
    ((getSessionStats st s now).estimatedTokens : ℤ) =
      ((sessionDocsOf st s).map fun d =>
        match st.documents.lookup d with
        | some doc => (doc.chunks.map specTokenCost).sum
        | none => 0).sum :=
  estTokens_eq (sessionDocsOf st s) st.documents

/-- Witness for `C8_token_estimate` on a one-document store. -/
theorem C8_token_estimate_witness :
    (sessionDocsOf (addDocument concreteLibs "d1" ["cat dog"] "m" "s1" 0
      emptyVDB) "s1").Nodup ∧
    (((getSessionStats (addDocument concreteLibs "d1" ["cat dog"] "m" "s1" 0
        emptyVDB) "s1" 0).estimatedTokens : ℤ) =
      ((sessionDocsOf (addDocument concreteLibs "d1" ["cat dog"] "m" "s1" 0
        emptyVDB) "s1").map fun d =>
        match (addDocument concreteLibs "d1" ["cat dog"] "m" "s1" 0
          emptyVDB).documents.lookup d with
        | some doc => (doc.chunks.map specTokenCost).sum
        | none => 0).sum) :=
  ⟨by decide, C8_token_estimate _ "s1" 0 (by decide)⟩

lemma prefix_key_eq (d : List Char) :
    ∀ (d' r : List Char), '_' ∉ d → '_' ∉ d' →
      (d ++ ['_']) <+: (d' ++ '_' :: r) → d = d' := by
  induction d with
  | nil =>
    intro d' r _ hd' h
    cases d' with
    | nil => rfl
    | cons c' t' =>
      obtain ⟨u, hu⟩ := h
      rw [List.nil_append, List.cons_append] at hu
      have hc : c' = '_' := by
        have := congrArg (fun l => l.head?) hu
        simpa using this.symm
      exact absurd (hc ▸ List.mem_cons_self c' t') hd'
  | cons c t ih =>
    intro d' r hd hd' h
    cases d' with
    | nil =>
      obtain ⟨u, hu⟩ := h
      rw [List.cons_append, List.cons_append, List.nil_append] at hu
      have hc : c = '_' := by
        have := congrArg (fun l => l.head?) hu
        simpa using this
      exact absurd (hc ▸ List.mem_cons_self c t) hd
    | cons c' t' =>
      obtain ⟨u, hu⟩ := h
      rw [List.cons_append, List.cons_append, List.cons_append] at hu
      injection hu with hc htail
      have ht : t = t' := by
        exact ih t' r (fun hm => hd (List.mem_cons_of_mem c hm))
          (fun hm => hd' (List.mem_cons_of_mem c' hm)) ⟨u, htail⟩
      rw [hc, ht]

lemma strStartsWith_key_false (d docId idx : String)
    (hd : '_' ∉ d.toList) (hdoc : '_' ∉ docId.toList) (hne : docId ≠ d) :
    strStartsWith (docId ++ "_" ++ idx) (d ++ "_") = false := by
  by_contra hc
  rw [Bool.not_eq_false, strStartsWith, decide_eq_true_eq] at hc
  rw [show (d ++ "_").toList = d.toList ++ ['_'] from rfl,
    show (docId ++ "_" ++ idx).toList =
      docId.toList ++ '_' :: idx.toList by
        show (docId.toList ++ ['_']) ++ idx.toList = _
        rw [List.append_assoc]
        rfl] at hc
  have h2 : (d.toList ++ ['_']) <+: (docId.toList ++ '_' :: idx.toList) := hc
  exact hne (String.ext (prefix_key_eq d.toList docId.toList idx.toList
    hd hdoc h2).symm)

lemma mem_foldl_removeDoc (docs : List String) :
    ∀ (st : VDB) (ke : String × EmbEntry), ke ∈ st.embeddings →
      (∀ d ∈ docs, strStartsWith ke.1 (d ++ "_") = false) →
      ke ∈ (docs.foldl removeDocFromStore st).embeddings := by
  induction docs with
  | nil => exact fun st ke hke _ => hke
  | cons d ds ih =>
    intro st ke hke hall
    rw [List.foldl_cons]
    refine ih _ ke ?_ fun d' hd' => hall d' (List.mem_cons_of_mem _ hd')
    rw [removeDocFromStore]
    rw [List.mem_filter]
    refine ⟨hke, ?_⟩
    simp [hall d (List.mem_cons_self _ _)]

/-- Claim C10, amended: `deleteSession` leaves every embedding entry of a
document not registered under the session unchanged PROVIDED document ids
contain no underscore (so the prefix match `docId ++ "_"` cannot capture
another document's chunk keys) and every key has the ingest shape
`documentId ++ "_" ++ chunkIndex`.  With an underscore in a document id the
prefix match can delete another document's chunks — see
`C10_counterexample`. -/
theorem C10_frame_preservation (s : String) (st : VDB)
    (hkeys : st.embeddings.Forall fun ke =>
      ke.1 = ke.2.documentId ++ "_" ++ toString ke.2.chunkIndex)
    (hids : st.embeddings.Forall fun ke => '_' ∉ ke.2.documentId.toList)
    (hsess : (sessionDocsOf st s).Forall fun d => '_' ∉ d.toList) :
    st.embeddings.Forall fun ke =>
      ke.2.documentId ∉ sessionDocsOf st s →
        ke ∈ (deleteSession s st).embeddings := by
  rw [List.forall_iff_forall_mem] at hkeys hids hsess ⊢
  intro ke hke hnot
  rw [deleteSession]
  refine mem_foldl_removeDoc _ st ke hke fun d hd => ?_
  rw [hkeys ke hke]
  exact strStartsWith_key_false d ke.2.documentId
    (toString ke.2.chunkIndex) (hsess d hd) (hids ke hke)
    fun he => hnot (he ▸ hd)

/-- Witness for `C10_frame_preservation`: two underscore-free documents in
different sessions; deleting one session preserves the other document's
entry. -/
theorem C10_frame_preservation_witness :
    ((addDocument concreteLibs "d2" ["x y"] "m" "s2" 0
        (addDocument concreteLibs "d1" ["cat dog"] "m" "s1" 0
          emptyVDB)).embeddings.Forall fun ke =>
      ke.1 = ke.2.documentId ++ "_" ++ toString ke.2.chunkIndex) ∧
    ((addDocument concreteLibs "d2" ["x y"] "m" "s2" 0
        (addDocument concreteLibs "d1" ["cat dog"] "m" "s1" 0
          emptyVDB)).embeddings.Forall fun ke =>
      '_' ∉ ke.2.documentId.toList) ∧
    ((sessionDocsOf (addDocument concreteLibs "d2" ["x y"] "m" "s2" 0
        (addDocument concreteLibs "d1" ["cat dog"] "m" "s1" 0
          emptyVDB)) "s2").Forall fun d => '_' ∉ d.toList) ∧
    ((addDocument concreteLibs "d2" ["x y"] "m" "s2" 0
        (addDocument concreteLibs "d1" ["cat dog"] "m" "s1" 0
          emptyVDB)).embeddings.Forall fun ke =>
      ke.2.documentId ∉ sessionDocsOf (addDocument concreteLibs "d2" ["x y"]
          "m" "s2" 0 (addDocument concreteLibs "d1" ["cat dog"] "m" "s1" 0
          emptyVDB)) "s2" →
        ke ∈ (deleteSession "s2" (addDocument concreteLibs "d2" ["x y"] "m"
          "s2" 0 (addDocument concreteLibs "d1" ["cat dog"] "m" "s1" 0
          emptyVDB))).embeddings) :=
  ⟨by decide, by decide, by decide,
    C10_frame_preservation "s2" _ (by decide) (by decide) (by decide)⟩

/-- Claim C10 as stated is false: with document ids "a_b" (session s2) and
"a" (session s1), deleting session s1 removes the embedding keyed
"a_b_0" — its key starts with `"a" ++ "_"` — even though its documentId
"a_b" is not registered under s1. -/
theorem C10_counterexample :
    ((addDocument concreteLibs "a" ["z w"] "m" "s1" 0
      (addDocument concreteLibs "a_b" ["x y"] "m" "s2" 0
        emptyVDB)).embeddings.lookup "a_b_0").isSome = true ∧
    sessionDocsOf (addDocument concreteLibs "a" ["z w"] "m" "s1" 0
      (addDocument concreteLibs "a_b" ["x y"] "m" "s2" 0
        emptyVDB)) "s1" = ["a"] ∧
    ¬ ("a_b" ∈ sessionDocsOf (addDocument concreteLibs "a" ["z w"] "m" "s1" 0
      (addDocument concreteLibs "a_b" ["x y"] "m" "s2" 0
        emptyVDB)) "s1") ∧
    ((deleteSession "s1" (addDocument concreteLibs "a" ["z w"] "m" "s1" 0
      (addDocument concreteLibs "a_b" ["x y"] "m" "s2" 0
        emptyVDB))).embeddings.lookup "a_b_0").isNone = true :=
  ⟨by decide, by decide, by decide, by decide⟩

lemma foldl_max_choice : ∀ (t : List ℝ) (a : ℝ),
    t.foldl max a = a ∨ t.foldl max a ∈ t := by
  intro t
  induction t with
  | nil => exact fun a => Or.inl rfl
  | cons x t ih =>
    intro a
    rw [List.foldl_cons]
    rcases ih (max a x) with h | h
    · rcases max_choice a x with h2 | h2
      · exact Or.inl (by rw [h, h2])
      · exact Or.inr (by rw [h, h2]; exact List.mem_cons_self x t)
    · exact Or.inr (List.mem_cons_of_mem _ h)

lemma init_le_foldl_max : ∀ (t : List ℝ) (a : ℝ), a ≤ t.foldl max a := by
  intro t
  induction t with
  | nil => exact fun a => le_refl a
  | cons x t ih =>
    intro a
    rw [List.foldl_cons]
    exact le_trans (le_max_left a x) (ih (max a x))

lemma mem_le_foldl_max : ∀ (t : List ℝ) (a x : ℝ), x ∈ t →
    x ≤ t.foldl max a := by
  intro t
  induction t with
  | nil => intro a x hx; cases hx
  | cons y t ih =>
    intro a x hx
    rw [List.foldl_cons]
    rcases List.mem_cons.1 hx with h | h
    · subst h
      exact le_trans (le_max_right a x) (init_le_foldl_max t _)
    · exact ih _ x h

lemma jsMax_mem (l : List ℝ) (h : l ≠ []) : jsMax l ∈ l := by
  cases l with
  | nil => exact absurd rfl h
  | cons x t =>
    rw [jsMax]
    rcases foldl_max_choice t x with h2 | h2
    · rw [h2]
      exact List.mem_cons_self x t
    · exact List.mem_cons_of_mem _ h2

lemma le_jsMax (l : List ℝ) (x : ℝ) (hx : x ∈ l) : x ≤ jsMax l := by
  cases l with
  | nil => cases hx
  | cons y t =>
    rw [jsMax]
    rcases List.mem_cons.1 hx with h | h
    · exact h ▸ init_le_foldl_max t y
    · exact mem_le_foldl_max t y x h

lemma jsMax_perm (l l' : List ℝ) (hp : l.Perm l') (h : l ≠ []) :
    jsMax l = jsMax l' := by
  have h' : l' ≠ [] := by
    intro h0
    apply h
    rw [← List.length_eq_zero, hp.length_eq, h0]
    rfl
  exact le_antisymm
    (le_jsMax l' _ (hp.mem_iff.1 (jsMax_mem l h)))
    (le_jsMax l _ (hp.mem_iff.2 (jsMax_mem l' h')))

lemma groupStep_values_ne_nil (acc : List (String × List SearchResult))
    (r : SearchResult) (h : ∀ p ∈ acc, p.2 ≠ []) :
    ∀ p ∈ groupStep acc r, p.2 ≠ [] := by
  intro p hp
  rw [groupStep] at hp
  split at hp
  · obtain ⟨q, hq, rfl⟩ := List.mem_map.1 hp
    split
    · simp
    · exact h q hq
  · rcases List.mem_append.1 hp with hp2 | hp2
    · exact h p hp2
    · rw [List.mem_singleton] at hp2
      rw [hp2]
      simp

lemma foldl_groupStep_values_ne_nil (rs : List SearchResult) :
    ∀ acc, (∀ p ∈ acc, p.2 ≠ []) →
      ∀ p ∈ rs.foldl groupStep acc, p.2 ≠ [] := by
  induction rs with
  | nil => exact fun acc h => h
  | cons r rs ih =>
    intro acc h
    rw [List.foldl_cons]
    exact ih _ (groupStep_values_ne_nil acc r h)

lemma groupByDoc_values_ne_nil (rs : List SearchResult) :
    ∀ p ∈ groupByDoc rs, p.2 ≠ [] :=
  foldl_groupStep_values_ne_nil rs [] (by intro p hp; cases hp)

lemma mkCrossDocGroup_chunks (st : VDB) (now : ℚ) (k : String)
    (c : List SearchResult) :
    (mkCrossDocGroup st now k c).chunks =
      c.mergeSort fun a b => decide (b.similarity ≤ a.similarity) := rfl

lemma mkCrossDocGroup_chunkCount (st : VDB) (now : ℚ) (k : String)
    (c : List SearchResult) :
    (mkCrossDocGroup st now k c).chunkCount = c.length := rfl

lemma mkCrossDocGroup_relevanceScore (st : VDB) (now : ℚ) (k : String)
    (c : List SearchResult) :
    (mkCrossDocGroup st now k c).relevanceScore =
      (c.map (·.similarity)).sum / (c.length : ℝ) * 0.4 +
      jsMax (c.map (·.similarity)) * 0.4 +
      Real.log ((c.length : ℝ) + 1) * 0.1 +
      (mkCrossDocGroup st now k c).qualityBonus * 0.1 := rfl

lemma calculateDocumentQuality_le_one (d : DocData) (now : ℚ) :
    calculateDocumentQuality d now ≤ 1 := by
  rw [calculateDocumentQuality]
  exact min_le_right _ _

lemma mkCrossDocGroup_qualityBonus (st : VDB) (now : ℚ) (k : String)
    (c : List SearchResult) :
    (mkCrossDocGroup st now k c).qualityBonus =
      (match st.documents.lookup k with
        | some d => ((calculateDocumentQuality d now : ℚ) : ℝ)
        | none => (0 : ℝ)) := rfl

lemma mkCrossDocGroup_qualityBonus_le_one (st : VDB) (now : ℚ) (k : String)
    (c : List SearchResult) :
    (mkCrossDocGroup st now k c).qualityBonus ≤ 1 := by
  rw [mkCrossDocGroup_qualityBonus]
  cases st.documents.lookup k with
  | none => exact zero_le_one
  | some d =>
    calc ((calculateDocumentQuality d now : ℚ) : ℝ)
        ≤ ((1 : ℚ) : ℝ) := Rat.cast_le.2 (calculateDocumentQuality_le_one d now)
      _ = 1 := by norm_num

/-- Claim C4, amended: every document group produced by
`crossDocumentSearch` carries a non-empty chunk list, `chunkCount` equal to
its length, and a relevance score equal to
`0.4*avg + 0.4*max + 0.1*ln(chunkCount+1) + 0.1*qualityBonus`, where avg and
max are taken over the group's chunk similarities and the quality bonus is
at most 1.  The maximum's weight is 0.4 (not the spec's 0.6), and the extra
`0.1 * qualityBonus` term is part of the formula. -/
theorem C4_relevance_formula (L : Libs) (st : VDB) (q : String)
    (sid : Option String) (lim : ℕ) (now : ℚ) :
    (crossDocumentSearch L st q sid lim now).Forall fun g =>
      g.chunks ≠ [] ∧
      g.chunkCount = g.chunks.length ∧
      g.qualityBonus ≤ 1 ∧
      g.relevanceScore =
        0.4 * ((g.chunks.map (·.similarity)).sum / (g.chunks.length : ℝ)) +
        0.4 * jsMax (g.chunks.map (·.similarity)) +
        0.1 * Real.log ((g.chunks.length : ℝ) + 1) +
        0.1 * g.qualityBonus := by
  rw [List.forall_iff_forall_mem]
  intro g hg
  rw [crossDocumentSearch.eq_def] at hg
  have hg2 := List.mem_mergeSort.1 (List.mem_of_mem_take hg)
  obtain ⟨p, hp, rfl⟩ := List.mem_map.1 hg2
  have hne := groupByDoc_values_ne_nil _ p hp
  have hperm : (mkCrossDocGroup st now p.1 p.2).chunks.Perm p.2 := by
    rw [mkCrossDocGroup_chunks]
    exact List.mergeSort_perm _ _
  have hchunks_ne : (mkCrossDocGroup st now p.1 p.2).chunks ≠ [] := by
    intro h0
    apply hne
    rw [← List.length_eq_zero, ← hperm.length_eq, h0]
    rfl
  have hsimp : ((mkCrossDocGroup st now p.1 p.2).chunks.map
      (·.similarity)).Perm (p.2.map (·.similarity)) := hperm.map _
  have hsum := hsimp.sum_eq
  have hlen := hperm.length_eq
  have hmax : jsMax ((mkCrossDocGroup st now p.1 p.2).chunks.map
      (·.similarity)) = jsMax (p.2.map (·.similarity)) :=
    jsMax_perm _ _ hsimp (by
      intro h0
      exact hchunks_ne (List.map_eq_nil_iff.1 h0))
  refine ⟨hchunks_ne, ?_, mkCrossDocGroup_qualityBonus_le_one st now p.1 p.2, ?_⟩
  · rw [mkCrossDocGroup_chunkCount, hlen]
  · rw [mkCrossDocGroup_relevanceScore, hsum, hlen, hmax]
    ring

/-- Claim C4 as stated is false: for a one-document, one-chunk corpus whose
single group has avg = max = 1 and chunkCount = 1, the group's relevance
score is `0.4 + 0.4 + 0.1*ln 2 + 0.1*qualityBonus` with qualityBonus ≤ 1,
which cannot equal the claimed `0.4*1 + 0.6*1 + 0.1*ln 2`. -/
theorem C4_counterexample :
    ((crossDocumentSearch concreteLibs
        (addDocument concreteLibs "d1" ["cat dog"] "m" "s2" 0 emptyVDB)
        "cat dog" (some "s2") 20 0).map
      fun g => g.chunks.map (·.similarity)).head? = some [1] ∧
    (crossDocumentSearch concreteLibs
        (addDocument concreteLibs "d1" ["cat dog"] "m" "s2" 0 emptyVDB)
        "cat dog" (some "s2") 20 0).length = 1 ∧
    ((crossDocumentSearch concreteLibs
        (addDocument concreteLibs "d1" ["cat dog"] "m" "s2" 0 emptyVDB)
        "cat dog" (some "s2") 20 0).map
      (·.relevanceScore)).head? ≠ some (claimedRelevanceScore 1 1 1) := by
  have hsearch : semanticSearch concreteLibs
      (addDocument concreteLibs "d1" ["cat dog"] "m" "s2" 0 emptyVDB)
      "cat dog" (some "s2") (20 * 2) none =
      [⟨"d1", 0, "cat dog", "m", extractChunkKeywords concreteLibs "cat dog",
        calculateEnhancedSimilarity (createTextEmbedding concreteLibs "cat dog")
          (createTextEmbedding concreteLibs "cat dog"),
        calculateEnhancedSimilarity (createTextEmbedding concreteLibs "cat dog")
          (createTextEmbedding concreteLibs "cat dog")⟩] := by
    have hemb : (addDocument concreteLibs "d1" ["cat dog"] "m" "s2" 0
        emptyVDB).embeddings =
        [("d1_0", ⟨"d1", 0, "cat dog",
          createTextEmbedding concreteLibs "cat dog", "m",
          extractChunkKeywords concreteLibs "cat dog",
          createWordVectors concreteLibs "cat dog"⟩)] := rfl
    have hsid : (addDocument concreteLibs "d1" ["cat dog"] "m" "s2" 0
        emptyVDB).sessionDocuments.lookup "s2" = some ["d1"] := rfl
    have hdocs : sessionDocsOf (addDocument concreteLibs "d1" ["cat dog"] "m"
        "s2" 0 emptyVDB) "s2" = ["d1"] := rfl
    rw [semanticSearch.eq_def]
    simp only [hemb, hsid, hdocs, Option.isSome_some, List.map_cons,
      List.map_nil, List.filter_cons, List.filter_nil]
    norm_num
    rw [List.filterMap_cons]
    dsimp only
    rw [if_pos (show (1 : ℝ) / 10 < calculateEnhancedSimilarity
        (createTextEmbedding concreteLibs "cat dog")
        (createTextEmbedding concreteLibs "cat dog") by
      rw [enhancedSelf_catdog]
      norm_num)]
    simp [List.mergeSort_singleton]
  have hcross : crossDocumentSearch concreteLibs
      (addDocument concreteLibs "d1" ["cat dog"] "m" "s2" 0 emptyVDB)
      "cat dog" (some "s2") 20 0 =
      [mkCrossDocGroup
        (addDocument concreteLibs "d1" ["cat dog"] "m" "s2" 0 emptyVDB) 0 "d1"
        [⟨"d1", 0, "cat dog", "m", extractChunkKeywords concreteLibs "cat dog",
          calculateEnhancedSimilarity
            (createTextEmbedding concreteLibs "cat dog")
            (createTextEmbedding concreteLibs "cat dog"),
          calculateEnhancedSimilarity
            (createTextEmbedding concreteLibs "cat dog")
            (createTextEmbedding concreteLibs "cat dog")⟩]] := by
    rw [crossDocumentSearch.eq_def, hsearch]
    dsimp only
    rw [show groupByDoc [(⟨"d1", 0, "cat dog", "m",
        extractChunkKeywords concreteLibs "cat dog",
        calculateEnhancedSimilarity
          (createTextEmbedding concreteLibs "cat dog")
          (createTextEmbedding concreteLibs "cat dog"),
        calculateEnhancedSimilarity
          (createTextEmbedding concreteLibs "cat dog")
          (createTextEmbedding concreteLibs "cat dog")⟩ : SearchResult)] =
      [("d1", [⟨"d1", 0, "cat dog", "m",
        extractChunkKeywords concreteLibs "cat dog",
        calculateEnhancedSimilarity
          (createTextEmbedding concreteLibs "cat dog")
          (createTextEmbedding concreteLibs "cat dog"),
        calculateEnhancedSimilarity
          (createTextEmbedding concreteLibs "cat dog")
          (createTextEmbedding concreteLibs "cat dog")⟩])]
      from rfl]
    rw [List.map_cons, List.map_nil, List.mergeSort_singleton]
    rfl
  have hchunks : (mkCrossDocGroup
      (addDocument concreteLibs "d1" ["cat dog"] "m" "s2" 0 emptyVDB) 0 "d1"
      [⟨"d1", 0, "cat dog", "m", extractChunkKeywords concreteLibs "cat dog",
        calculateEnhancedSimilarity (createTextEmbedding concreteLibs "cat dog")
          (createTextEmbedding concreteLibs "cat dog"),
        calculateEnhancedSimilarity (createTextEmbedding concreteLibs "cat dog")
          (createTextEmbedding concreteLibs "cat dog")⟩]).chunks.map
      (·.similarity) = [1] := by
    rw [mkCrossDocGroup_chunks, List.mergeSort_singleton, List.map_cons,
      List.map_nil]
    rw [show (⟨"d1", 0, "cat dog", "m",
        extractChunkKeywords concreteLibs "cat dog",
        calculateEnhancedSimilarity
          (createTextEmbedding concreteLibs "cat dog")
          (createTextEmbedding concreteLibs "cat dog"),
        calculateEnhancedSimilarity
          (createTextEmbedding concreteLibs "cat dog")
          (createTextEmbedding concreteLibs "cat dog")⟩ :
        SearchResult).similarity =
      calculateEnhancedSimilarity (createTextEmbedding concreteLibs "cat dog")
        (createTextEmbedding concreteLibs "cat dog") from rfl,
      enhancedSelf_catdog]
  refine ⟨?_, ?_, ?_⟩
  · rw [hcross, List.map_cons, List.head?_cons, hchunks]
  · rw [hcross]
    rfl
  · rw [hcross, List.map_cons, List.head?_cons]
    intro heq
    rw [Option.some_inj] at heq
    rw [mkCrossDocGroup_relevanceScore] at heq
    have hq := mkCrossDocGroup_qualityBonus_le_one
      (addDocument concreteLibs "d1" ["cat dog"] "m" "s2" 0 emptyVDB) 0 "d1"
      [⟨"d1", 0, "cat dog", "m", extractChunkKeywords concreteLibs "cat dog",
        calculateEnhancedSimilarity (createTextEmbedding concreteLibs "cat dog")
          (createTextEmbedding concreteLibs "cat dog"),
        calculateEnhancedSimilarity (createTextEmbedding concreteLibs "cat dog")
          (createTextEmbedding concreteLibs "cat dog")⟩]
    rw [show ([⟨"d1", 0, "cat dog", "m",
        extractChunkKeywords concreteLibs "cat dog",
        calculateEnhancedSimilarity
          (createTextEmbedding concreteLibs "cat dog")
          (createTextEmbedding concreteLibs "cat dog"),
        calculateEnhancedSimilarity
          (createTextEmbedding concreteLibs "cat dog")
          (createTextEmbedding concreteLibs "cat dog")⟩] :
        List SearchResult).map (·.similarity) =
      [calculateEnhancedSimilarity (createTextEmbedding concreteLibs "cat dog")
        (createTextEmbedding concreteLibs "cat dog")] from rfl,
      enhancedSelf_catdog] at heq
    rw [show jsMax [(1 : ℝ)] = 1 from rfl] at heq
    rw [claimedRelevanceScore] at heq
    simp only [List.sum_cons, List.sum_nil, List.length_cons,
      List.length_nil] at heq
    norm_num at heq
    rw [mkCrossDocGroup_qualityBonus] at heq
    have hqm : (match (addDocument concreteLibs "d1" ["cat dog"] "m" "s2" 0
        emptyVDB).documents.lookup "d1" with
      | some d => ((calculateDocumentQuality d 0 : ℚ) : ℝ)
      | none => (0 : ℝ)) ≤ 1 := by
      rw [← mkCrossDocGroup_qualityBonus (addDocument concreteLibs "d1"
        ["cat dog"] "m" "s2" 0 emptyVDB) 0 "d1" []]
      exact mkCrossDocGroup_qualityBonus_le_one _ 0 "d1" []
    linarith [hqm, heq]

end VecDB
